import Mathlib

/-!
Verification development for the coffee-shop vibe scoring engine
(`src/scoring.py`).  The Python code is shallowly embedded: Python scalar
values become the inductive type `Val`, records (dicts) become association
lists, fallible code returns `Except Unit`, and floating point numbers are
modelled as exact rationals extended with a NaN element (`PF`) where the
code can actually meet NaN (binary rounding is abstracted away; all
constants in the source are decimal literals, represented exactly).
-/

/-- A Python scalar value as stored in a shop record: `None`, a finite
number (int/float, exact), the float NaN, a bool, a string, a list, or a
dict (used for the weekly-hours mapping). -/
inductive Val where
  | vnone : Val
  | vnum (q : ℚ) : Val
  | vnan : Val
  | vbool (b : Bool) : Val
  | vstr (s : String) : Val
  | vlist (items : List Val) : Val
  | vdict (entries : List (String × Val)) : Val

/-- Python float extended with NaN: comparisons with NaN are false and
arithmetic with NaN yields NaN, exactly as in IEEE/Python semantics. -/
inductive PF where
  | num (q : ℚ) : PF
  | nan : PF
deriving DecidableEq

def PF.add : PF → PF → PF
  | PF.num a, PF.num b => PF.num (a + b)
  | _, _ => PF.nan

def PF.sub : PF → PF → PF
  | PF.num a, PF.num b => PF.num (a - b)
  | _, _ => PF.nan

/-- Python division on floats.  A zero divisor would raise
`ZeroDivisionError`; every call site below divides by a number already
known non-zero, so that branch (mapped to NaN) is unreachable. -/
def PF.div : PF → PF → PF
  | PF.num a, PF.num b => if b = 0 then PF.nan else PF.num (a / b)
  | _, _ => PF.nan

/-- Python `<` between floats: false whenever either side is NaN. -/
def PF.lt : PF → PF → Bool
  | PF.num a, PF.num b => decide (a < b)
  | _, _ => false

/-- Python `<=` between floats: false whenever either side is NaN. -/
def PF.le : PF → PF → Bool
  | PF.num a, PF.num b => decide (a ≤ b)
  | _, _ => false

/-- Python builtin `max(a, b)`: returns `b` if `b > a`, else `a`
(so `max(nan, x) = nan` and `max(x, nan) = x`). -/
def pyMaxPF (a b : PF) : PF := if PF.lt a b then b else a

/-- Python builtin `min(a, b)`: returns `b` if `b < a`, else `a`. -/
def pyMinPF (a b : PF) : PF := if PF.lt b a then b else a

/-- `clamp(x)` from the source: `max(lo, min(hi, x))` with the default
bounds `lo=0.0, hi=1.0` (every call site uses these bounds). -/
def clamp (x : ℚ) : ℚ := max 0 (min 1 x)

/-- `clamp` on a possibly-NaN float: Python's `max(0.0, min(1.0, x))`
evaluates to `1.0` when `x` is NaN, because both comparisons are false
and each builtin keeps its first argument. -/
def pfClamp : PF → ℚ
  | PF.num q => clamp q
  | PF.nan => 1

/-- Numeric view of a scalar `Val` for arithmetic contexts: bools act as
0/1, NaN stays NaN; `none` for values whose arithmetic raises. -/
def toPF : Val → Option PF
  | Val.vnum q => some (PF.num q)
  | Val.vnan => some PF.nan
  | Val.vbool b => some (PF.num (if b then 1 else 0))
  | _ => none

/-- Accumulate the decimal digits of `cs` onto an optional value,
failing on any non-digit character. -/
def digitsVal (cs : List Char) : Option ℕ :=
  cs.foldl
    (fun acc c => acc.bind (fun n =>
      if c.isDigit then some (10 * n + (c.toNat - 48)) else none))
    (some 0)

/-- Split a character list at the first dot, if any. -/
def splitDot : List Char → List Char × Option (List Char)
  | [] => ([], none)
  | c :: rest =>
    if c = '.' then ([], some rest)
    else
      let p := splitDot rest
      (c :: p.1, p.2)

/-- Parse a decimal literal (optional sign, digits, optional fractional
part) the way Python `float(str)` accepts it; anything else fails.
(Exotic accepted spellings such as exponents or "inf"/"nan" strings are
outside the scope of this model; no record in the claims uses them.) -/
def parseFloat : String → Option ℚ :=
  fun s =>
    let p :=
      match s.data with
      | c :: rest =>
        if c = '-' then ((-1 : ℚ), rest)
        else if c = '+' then ((1 : ℚ), rest)
        else ((1 : ℚ), s.data)
      | [] => ((1 : ℚ), [])
    let parts := splitDot p.2
    match parts.2 with
    | none =>
      if parts.1 = [] then none
      else (digitsVal parts.1).map (fun n => p.1 * n)
    | some frac =>
      if parts.1 = [] ∧ frac = [] then none
      else
        (digitsVal parts.1).bind (fun i =>
          (digitsVal frac).map (fun f =>
            p.1 * ((i : ℚ) + (f : ℚ) / 10 ^ frac.length)))

/-- Python `float(x)`: numbers pass through, bools become 0/1, strings
must parse as a decimal literal, and anything else raises `TypeError`.
Every call site first filters `None`/NaN through `_nz`, so those
constructors are unreachable here and mapped to an error. -/
def pyFloat : Val → Except Unit ℚ
  | Val.vnum q => Except.ok q
  | Val.vbool b => Except.ok (if b then 1 else 0)
  | Val.vstr s =>
    match parseFloat s with
    | some q => Except.ok q
    | none => Except.error ()
  | _ => Except.error ()

/-- Python truthiness of a value (`bool(x)`). -/
def pyTruthy : Val → Bool
  | Val.vnone => false
  | Val.vnum q => decide (q ≠ 0)
  | Val.vnan => true
  | Val.vbool b => b
  | Val.vstr s => decide (s ≠ "")
  | Val.vlist items => !items.isEmpty
  | Val.vdict entries => !entries.isEmpty

/-- `_nz(v, d)` from the source: replace `None` or float NaN by the
default `d`, otherwise keep `v`.  (The source default `d=None` is passed
explicitly as `Val.vnone` at those call sites.) -/
def _nz (v d : Val) : Val :=
  match v with
  | Val.vnone => d
  | Val.vnan => d
  | _ => v

/-- A shop record: a Python dict modelled as an association list with
distinct keys (first binding wins, as in a dict). -/
abbrev Record := List (String × Val)

/-- Dict lookup returning `none` when the key is absent. -/
def rGetOpt : Record → String → Option Val
  | [], _ => none
  | p :: rest, k => if p.1 = k then some p.2 else rGetOpt rest k

/-- Python `r.get(k, d)`. -/
def rGetD (r : Record) (k : String) (d : Val) : Val := (rGetOpt r k).getD d

/-- Python `r.get(k)` (default `None`). -/
def rGet (r : Record) (k : String) : Val := rGetD r k Val.vnone

/-- `norm_0_5`: scale a 0–5 rating to `[0,1]`, `None`-propagating. -/
def norm_0_5 (x : Val) : Except Unit (Option ℚ) :=
  match _nz x Val.vnone with
  | Val.vnone => Except.ok none
  | v =>
    match pyFloat v with
    | Except.error e => Except.error e
    | Except.ok f => Except.ok (some (clamp (f / 5)))

/-- `bool_norm`: `true→1.0`, `false→0.0`, absent/NaN→`None`.  Python
`bool(x)` is total, so no exception is possible. -/
def bool_norm (x : Val) : Option ℚ :=
  match _nz x Val.vnone with
  | Val.vnone => none
  | v => some (if pyTruthy v then 1 else 0)

/-- `norm_seating`: seat count scaled by the 40-seat ceiling. -/
def norm_seating (c : Val) : Except Unit (Option ℚ) :=
  match _nz c Val.vnone with
  | Val.vnone => Except.ok none
  | v =>
    match pyFloat v with
    | Except.error e => Except.error e
    | Except.ok f => Except.ok (some (clamp (f / 40)))

/-- `norm_price_index`: inverted linear price scale. -/
def norm_price_index (pi : Val) : Except Unit (Option ℚ) :=
  match _nz pi Val.vnone with
  | Val.vnone => Except.ok none
  | v =>
    match pyFloat v with
    | Except.error e => Except.error e
    | Except.ok f => Except.ok (some (clamp (1 - (f - 1) / 3)))

/-- `norm_df_milks`: dairy-free milk count scaled by 3. -/
def norm_df_milks (c : Val) : Except Unit (Option ℚ) :=
  match _nz c Val.vnone with
  | Val.vnone => Except.ok none
  | v =>
    match pyFloat v with
    | Except.error e => Except.error e
    | Except.ok f => Except.ok (some (clamp (f / 3)))

/-- `norm_noise_inverse`: `1 - norm_0_5(noise)`, `None`-propagating. -/
def norm_noise_inverse (n : Val) : Except Unit (Option ℚ) :=
  match norm_0_5 n with
  | Except.error e => Except.error e
  | Except.ok none => Except.ok none
  | Except.ok (some q) => Except.ok (some (clamp (1 - q)))

/-- `norm_mid_noise_bonus`: peaks at medium noise. -/
def norm_mid_noise_bonus (n : Val) : Except Unit (Option ℚ) :=
  match norm_0_5 n with
  | Except.error e => Except.error e
  | Except.ok none => Except.ok none
  | Except.ok (some q) => Except.ok (some (clamp (1 - |q - 0.5| * 2)))

/-- One iteration of the `norm_hours_late` loop: entries that are not
2-element lists, or have a `None` endpoint, are skipped; a non-numeric
endpoint raises (string/number comparison or subtraction `TypeError`);
otherwise add the (wraparound-aware) span to `t` and the after-19h
portion to `l`, in Python float (NaN-aware) arithmetic. -/
def lateStep (acc : PF × PF) (p : String × Val) : Except Unit (PF × PF) :=
  match p.2 with
  | Val.vlist [o, c] =>
    match o, c with
    | Val.vnone, _ => Except.ok acc
    | _, Val.vnone => Except.ok acc
    | _, _ =>
      match toPF o, toPF c with
      | some op, some cp =>
        let span := if PF.le op cp then PF.sub cp op
                    else PF.add (PF.sub (PF.num 24) op) cp
        let t := PF.add acc.1 (pyMaxPF span (PF.num 0))
        let l := if PF.lt (PF.num 19) cp
                 then PF.add acc.2
                        (pyMaxPF (PF.sub cp (pyMaxPF op (PF.num 19))) (PF.num 0))
                 else acc.2
        Except.ok (t, l)
      | _, _ => Except.error ()
  | _ => Except.ok acc

/-- Fold `lateStep` over the hours entries, propagating exceptions. -/
def lateFold (acc : PF × PF) : List (String × Val) → Except Unit (PF × PF)
  | [] => Except.ok acc
  | p :: rest =>
    match lateStep acc p with
    | Except.error e => Except.error e
    | Except.ok acc2 => lateFold acc2 rest

/-- `norm_hours_late`: fraction of the weekly open span after 19:00.
Non-dict or empty input yields `None`; if the accumulated span `t`
satisfies `t <= 0` (false for NaN `t`!) the result is `None`, else
`clamp(l/t)`. -/
def norm_hours_late (h : Val) : Except Unit (Option ℚ) :=
  match h with
  | Val.vdict entries =>
    if entries.isEmpty then Except.ok none
    else
      match lateFold (PF.num 0, PF.num 0) entries with
      | Except.error e => Except.error e
      | Except.ok tl =>
        if PF.le tl.1 (PF.num 0) then Except.ok none
        else Except.ok (some (pfClamp (PF.div tl.2 tl.1)))
  | _ => Except.ok none

/-- One iteration of the `norm_hours_early` loop.  The early portion is
added only when the day opens before 7.5; it is `min(7.5-o, span)` when
`c > o` and `min(7.5-o, 24-o+c)` otherwise. -/
def earlyStep (acc : PF × PF) (p : String × Val) : Except Unit (PF × PF) :=
  match p.2 with
  | Val.vlist [o, c] =>
    match o, c with
    | Val.vnone, _ => Except.ok acc
    | _, Val.vnone => Except.ok acc
    | _, _ =>
      match toPF o, toPF c with
      | some op, some cp =>
        let span := if PF.le op cp then PF.sub cp op
                    else PF.add (PF.sub (PF.num 24) op) cp
        let t := PF.add acc.1 (pyMaxPF span (PF.num 0))
        let e := if PF.lt op (PF.num 7.5)
                 then PF.add acc.2
                        (if PF.lt op cp
                         then pyMinPF (PF.sub (PF.num 7.5) op) span
                         else pyMinPF (PF.sub (PF.num 7.5) op)
                                (PF.add (PF.sub (PF.num 24) op) cp))
                 else acc.2
        Except.ok (t, e)
      | _, _ => Except.error ()
  | _ => Except.ok acc

/-- Fold `earlyStep` over the hours entries, propagating exceptions. -/
def earlyFold (acc : PF × PF) : List (String × Val) → Except Unit (PF × PF)
  | [] => Except.ok acc
  | p :: rest =>
    match earlyStep acc p with
    | Except.error e => Except.error e
    | Except.ok acc2 => earlyFold acc2 rest

/-- `norm_hours_early`: fraction of the weekly open span before 7:30. -/
def norm_hours_early (h : Val) : Except Unit (Option ℚ) :=
  match h with
  | Val.vdict entries =>
    if entries.isEmpty then Except.ok none
    else
      match earlyFold (PF.num 0, PF.num 0) entries with
      | Except.error e => Except.error e
      | Except.ok te =>
        if PF.le te.1 (PF.num 0) then Except.ok none
        else Except.ok (some (pfClamp (PF.div te.2 te.1)))
  | _ => Except.ok none

/-- `Val.isNone`: Python `v is None`. -/
def Val.isNone : Val → Bool
  | Val.vnone => true
  | _ => false

/-- Python `v * w` for a strength `v` and a float weight `w`: numbers and
bools multiply, NaN propagates, and any other operand raises
`TypeError`. -/
def pyMulW (v : Val) (w : ℚ) : Except Unit PF :=
  match toPF v with
  | some (PF.num q) => Except.ok (PF.num (q * w))
  | some PF.nan => Except.ok PF.nan
  | none => Except.error ()

/-- The usable pairs of `combine`: present strength and positive weight. -/
def presParts (parts : List (Val × ℚ)) : List (Val × ℚ) :=
  parts.filter (fun p => !p.1.isNone && decide (0 < p.2))

/-- The declared weight mass of `combine`: sum of the positive weights. -/
def totalW (parts : List (Val × ℚ)) : ℚ :=
  ((parts.filter (fun p => decide (0 < p.2))).map Prod.snd).sum

/-- `sum(v*w for v, w in pres)` as a left fold, propagating exceptions. -/
def sumMulAux (acc : PF) : List (Val × ℚ) → Except Unit PF
  | [] => Except.ok acc
  | p :: rest =>
    match pyMulW p.1 p.2 with
    | Except.error e => Except.error e
    | Except.ok m => sumMulAux (PF.add acc m) rest

/-- `combine(parts)` from the source: discard pairs with absent strength
or non-positive weight; on zero declared weight or no usable pairs
return `(0.0, 0.0)`; otherwise return the clamped weighted average of
the present strengths and the clamped coverage fraction. -/
def combine (parts : List (Val × ℚ)) : Except Unit (ℚ × ℚ) :=
  let pres := presParts parts
  let tw := totalW parts
  if tw ≤ 0 ∨ pres.isEmpty then Except.ok (0, 0)
  else
    match sumMulAux (PF.num 0) pres with
    | Except.error e => Except.error e
    | Except.ok numSum =>
      let den := (pres.map Prod.snd).sum
      Except.ok (pfClamp (PF.div numSum (PF.num den)), clamp (den / tw))

/-- The `VibeResult` dataclass. -/
structure VibeResult where
  score : ℚ
  coverage : ℚ
  confidence : String
  drivers : List String
deriving DecidableEq

/-- `_conf`: confidence banding from coverage. -/
def _conf (c : ℚ) : String :=
  if c ≥ 0.8 then "High" else if c ≥ 0.5 then "Medium" else "Low"

/-- Python `x or d` where `x` is a normalizer result: `None` and the
falsy `0.0` both fall through to the default `d`. -/
def pyOr (x : Option ℚ) (d : ℚ) : ℚ :=
  match x with
  | none => d
  | some q => if q = 0 then d else q

/-- Round-half-to-even on rationals, the documented behaviour of Python
`round` (binary float representation effects are abstracted away). -/
def roundHalfEven (y : ℚ) : ℤ :=
  if Int.fract y < 1 / 2 then ⌊y⌋
  else if 1 / 2 < Int.fract y then ⌊y⌋ + 1
  else if ⌊y⌋ % 2 = 0 then ⌊y⌋ else ⌊y⌋ + 1

/-- Python `round(x, 1)`. -/
def round1 (q : ℚ) : ℚ := (roundHalfEven (q * 10) : ℚ) / 10

/-- `clamp(x, 0, 1)` applied to a raw record value (the
`peak_busy_penalty` path in `grab_and_go`): Python `min`/`max` compare
the operands, so a bool clamps as 0/1, NaN clamps to 1, and a
non-numeric operand raises `TypeError`. -/
def clampVal : Val → Except Unit ℚ
  | Val.vnum q => Except.ok (clamp q)
  | Val.vbool b => Except.ok (if b then 1 else 0)
  | Val.vnan => Except.ok 1
  | _ => Except.error ()

/-- Python `v >= x` for a record value against a float: numbers and
bools compare, NaN compares false, anything else raises `TypeError`. -/
def pyGeQ (v : Val) (x : ℚ) : Except Unit Bool :=
  match toPF v with
  | some (PF.num q) => Except.ok (decide (x ≤ q))
  | some PF.nan => Except.ok false
  | none => Except.error ()

/-- Wrap a normalizer result for `combine`: `None` stays absent. -/
def optV : Option ℚ → Val
  | none => Val.vnone
  | some q => Val.vnum q

/-- Normalization phase of `work_friendly`: each attribute is fetched,
normalized, and immediately defaulted with `or` (or `_nz` for the hours
value), exactly as in the source — the defaults therefore reach
`combine`. -/
def work_friendly_norms (r : Record) :
    Except Unit (ℚ × ℚ × ℚ × ℚ × ℚ × ℚ × ℚ × ℚ) :=
  (norm_0_5 (rGet r "wifi_score")).bind fun wifiN =>
  (norm_0_5 (rGet r "outlets_score")).bind fun outletsN =>
  (norm_noise_inverse (rGet r "noise_score")).bind fun noiseN =>
  (norm_seating (rGet r "seating_count")).bind fun seatN =>
  (norm_hours_late (rGet r "hours_json")).bind fun lateN =>
  (norm_0_5 (rGet r "cleanliness_score")).bind fun cleanN =>
  (norm_0_5 (rGet r "parking_score")).bind fun parkN =>
  Except.ok (pyOr wifiN 0.6, pyOr outletsN 0.5, pyOr noiseN 0.5,
             pyOr seatN 0.4, pyOr (bool_norm (rGet r "restroom_access")) 0.5,
             lateN.getD 0.4, pyOr cleanN 0.6, pyOr parkN 0.5)

/-- Scoring phase of `work_friendly`: combine, coverage correction,
rounding and driver phrases. -/
def work_friendly_core (wifi outlets noise_inv seating restroom late clean
    parking : ℚ) : Except Unit VibeResult :=
  match combine [(Val.vnum wifi, 0.22), (Val.vnum outlets, 0.18),
      (Val.vnum noise_inv, 0.15), (Val.vnum seating, 0.12),
      (Val.vnum restroom, 0.10), (Val.vnum late, 0.10),
      (Val.vnum clean, 0.08), (Val.vnum parking, 0.05)] with
  | Except.error e => Except.error e
  | Except.ok sc =>
    let s := sc.1 * (0.9 + 0.1 * sc.2)
    let d := (if wifi ≥ 0.7 then ["reliable Wi‑Fi"] else []) ++
             (if outlets ≥ 0.6 then ["many outlets"] else []) ++
             (if noise_inv ≥ 0.6 then ["lower noise"] else []) ++
             (if late ≥ 0.5 then ["open late"] else [])
    Except.ok ⟨round1 (100 * s), sc.2, _conf sc.2, d.take 3⟩

/-- The Work-Friendly scorer. -/
def work_friendly (r : Record) : Except Unit VibeResult :=
  (work_friendly_norms r).bind fun (a, b, c, d, e, f, g, h) =>
  work_friendly_core a b c d e f g h

/-- Normalization phase of `aesthetic` (two attributes fall back to the
aesthetic score before normalization). -/
def aesthetic_norms (r : Record) : Except Unit (ℚ × ℚ × ℚ × ℚ × ℚ × ℚ) :=
  (norm_0_5 (rGet r "aesthetic_score")).bind fun aestN =>
  (norm_0_5 (rGetD r "natural_light_score" (rGet r "aesthetic_score"))).bind fun lightN =>
  (norm_0_5 (rGet r "latte_art_score")).bind fun latteN =>
  (norm_0_5 (rGet r "cleanliness_score")).bind fun cleanN =>
  (norm_0_5 (rGetD r "unique_decor_score" (rGet r "aesthetic_score"))).bind fun decorN =>
  (norm_0_5 (rGet r "dessert_score")).bind fun dessertN =>
  Except.ok (pyOr aestN 0.5, pyOr lightN 0.5, pyOr latteN 0.4,
             pyOr cleanN 0.6, pyOr decorN 0.5, pyOr dessertN 0.5)

/-- Scoring phase of `aesthetic`. -/
def aesthetic_core (aest light latte clean decor dessert : ℚ) :
    Except Unit VibeResult :=
  match combine [(Val.vnum aest, 0.40), (Val.vnum light, 0.20),
      (Val.vnum latte, 0.15), (Val.vnum clean, 0.10),
      (Val.vnum decor, 0.10), (Val.vnum dessert, 0.05)] with
  | Except.error e => Except.error e
  | Except.ok sc =>
    let s := sc.1 * (0.9 + 0.1 * sc.2)
    let d := (if aest ≥ 0.7 then ["design-forward space"] else []) ++
             (if light ≥ 0.65 then ["great natural light"] else []) ++
             (if latte ≥ 0.6 then ["latte art"] else [])
    Except.ok ⟨round1 (100 * s), sc.2, _conf sc.2, d.take 3⟩

/-- The Aesthetic scorer. -/
def aesthetic (r : Record) : Except Unit VibeResult :=
  (aesthetic_norms r).bind fun (a, b, c, d, e, f) =>
  aesthetic_core a b c d e f

/-- Normalization phase of `grab_and_go` (the speed composite is built
in the scoring phase from these values). -/
def grab_and_go_norms (r : Record) : Except Unit (ℚ × ℚ × ℚ × ℚ × ℚ) :=
  (norm_0_5 (rGet r "parking_score")).bind fun parkingN =>
  (norm_hours_early (rGet r "hours_json")).bind fun earlyN =>
  (clampVal (_nz (rGet r "peak_busy_penalty") (Val.vnum 0.2))).bind fun peak =>
  Except.ok (pyOr parkingN 0.5, earlyN.getD 0.4,
             pyOr (bool_norm (rGet r "mobile_order")) 0,
             pyOr (bool_norm (rGet r "has_drive_through")) 0, peak)

/-- Scoring phase of `grab_and_go`, with the derived speed composite
`clamp(0.4 + 0.3*mobile + 0.3*drive - 0.2*peak)`. -/
def grab_and_go_core (parking early mobile drive peak : ℚ) :
    Except Unit VibeResult :=
  match combine [(Val.vnum (clamp (0.4 + 0.3 * mobile + 0.3 * drive - 0.2 * peak)), 0.35),
      (Val.vnum parking, 0.25), (Val.vnum early, 0.15),
      (Val.vnum mobile, 0.15), (Val.vnum drive, 0.10)] with
  | Except.error e => Except.error e
  | Except.ok sc =>
    let s := sc.1 * (0.9 + 0.1 * sc.2)
    let d := (if drive ≥ 0.9 then ["drive-through"] else []) ++
             (if mobile ≥ 0.9 then ["mobile order"] else []) ++
             (if early ≥ 0.6 then ["opens early"] else [])
    Except.ok ⟨round1 (100 * s), sc.2, _conf sc.2, d.take 3⟩

/-- The Grab-and-Go scorer. -/
def grab_and_go (r : Record) : Except Unit VibeResult :=
  (grab_and_go_norms r).bind fun (a, b, c, d, e) =>
  grab_and_go_core a b c d e

/-- Normalization phase of `date_night`: the ambience composite is the
blended strength of an inner `combine`; the walkables strength comes
from the argument, else from the raw `nearby_walkables_norm` field
(NaN filtered), else stays absent. -/
def date_night_norms (r : Record) (walk : Option ℚ) :
    Except Unit (ℚ × ℚ × ℚ × ℚ × Val × ℚ) :=
  (norm_0_5 (rGetD r "lighting_score" (rGet r "aesthetic_score"))).bind fun lightN =>
  (norm_0_5 (rGetD r "seating_comfort_score" (rGet r "aesthetic_score"))).bind fun comfortN =>
  (norm_mid_noise_bonus (rGet r "noise_score")).bind fun midN =>
  (combine [(optV lightN, 0.35), (optV comfortN, 0.35), (optV midN, 0.30)]).bind fun ambC =>
  (norm_0_5 (rGet r "dessert_score")).bind fun dessertN =>
  (norm_hours_late (rGet r "hours_json")).bind fun lateN =>
  (norm_0_5 (rGet r "aesthetic_score")).bind fun aestN =>
  (norm_0_5 (rGet r "cleanliness_score")).bind fun cleanN =>
  Except.ok (ambC.1, pyOr dessertN 0.5, lateN.getD 0.4, pyOr aestN 0.5,
             (match walk with
              | some q => Val.vnum q
              | none => _nz (rGet r "nearby_walkables_norm") Val.vnone),
             pyOr cleanN 0.6)

/-- Scoring phase of `date_night`; the walkables pair may be absent. -/
def date_night_core (amb dessert late aest : ℚ) (walkV : Val) (clean : ℚ) :
    Except Unit VibeResult :=
  match combine [(Val.vnum amb, 0.25), (Val.vnum dessert, 0.20),
      (Val.vnum late, 0.18), (Val.vnum aest, 0.15),
      (walkV, 0.12), (Val.vnum clean, 0.10)] with
  | Except.error e => Except.error e
  | Except.ok sc =>
    let s := sc.1 * (0.9 + 0.1 * sc.2)
    let d := (if amb ≠ 0 ∧ amb ≥ 0.65 then ["cozy ambience"] else []) ++
             (if dessert ≥ 0.65 then ["good desserts"] else []) ++
             (if late ≥ 0.6 then ["open late"] else [])
    Except.ok ⟨round1 (100 * s), sc.2, _conf sc.2, d.take 3⟩

/-- The Date-Night scorer. -/
def date_night (r : Record) (walk : Option ℚ) : Except Unit VibeResult :=
  (date_night_norms r walk).bind fun (a, b, c, d, e, f) =>
  date_night_core a b c d e f

/-- Normalization phase of `dietary_friendly` (the transparency lookup
defaults to the raw value `3.0` before normalization). -/
def dietary_friendly_norms (r : Record) : Except Unit (ℚ × ℚ × ℚ × ℚ × ℚ) :=
  (norm_df_milks (rGet r "df_milks")).bind fun dfN =>
  (norm_0_5 (rGetD r "ingredient_transparency_score" (Val.vnum 3))).bind fun labelN =>
  (norm_0_5 (rGet r "cleanliness_score")).bind fun cleanN =>
  Except.ok (pyOr (bool_norm (rGet r "gf_food")) 0, pyOr dfN 0,
             pyOr (bool_norm (rGet r "nut_free")) 0,
             pyOr labelN 0.6, pyOr cleanN 0.6)

/-- Scoring phase of `dietary_friendly`. -/
def dietary_friendly_core (gf df nut label clean : ℚ) :
    Except Unit VibeResult :=
  match combine [(Val.vnum gf, 0.40), (Val.vnum df, 0.28),
      (Val.vnum nut, 0.12), (Val.vnum label, 0.10),
      (Val.vnum clean, 0.10)] with
  | Except.error e => Except.error e
  | Except.ok sc =>
    let s := sc.1 * (0.9 + 0.1 * sc.2)
    let d := (if gf ≥ 0.9 then ["gluten-free options"] else []) ++
             (if df ≥ 0.67 then ["dairy-free milks"] else []) ++
             (if nut ≥ 0.9 then ["nut-free choices"] else [])
    Except.ok ⟨round1 (100 * s), sc.2, _conf sc.2, d.take 3⟩

/-- The Dietary-Friendly scorer. -/
def dietary_friendly (r : Record) : Except Unit VibeResult :=
  (dietary_friendly_norms r).bind fun (a, b, c, d, e) =>
  dietary_friendly_core a b c d e

/-- Normalization phase of `study_spot`. -/
def study_spot_norms (r : Record) : Except Unit (ℚ × ℚ × ℚ × ℚ × ℚ × ℚ) :=
  (norm_0_5 (rGet r "outlets_score")).bind fun outletsN =>
  (norm_seating (rGet r "seating_count")).bind fun seatN =>
  (norm_0_5 (rGet r "wifi_score")).bind fun wifiN =>
  (norm_price_index (rGet r "price_index")).bind fun priceN =>
  (norm_hours_late (rGet r "hours_json")).bind fun lateN =>
  (norm_noise_inverse (rGet r "noise_score")).bind fun noiseN =>
  Except.ok (pyOr outletsN 0.5, pyOr seatN 0.4, pyOr wifiN 0.6,
             pyOr priceN 0.5, lateN.getD 0.4, pyOr noiseN 0.5)

/-- Scoring phase of `study_spot`. -/
def study_spot_core (outlets seating wifi price late noise_inv : ℚ) :
    Except Unit VibeResult :=
  match combine [(Val.vnum outlets, 0.28), (Val.vnum seating, 0.22),
      (Val.vnum wifi, 0.18), (Val.vnum price, 0.12),
      (Val.vnum late, 0.10), (Val.vnum noise_inv, 0.10)] with
  | Except.error e => Except.error e
  | Except.ok sc =>
    let s := sc.1 * (0.9 + 0.1 * sc.2)
    let d := (if outlets ≥ 0.6 then ["outlets available"] else []) ++
             (if seating ≥ 0.6 then ["ample seating"] else []) ++
             (if price ≥ 0.6 then ["budget-friendly"] else [])
    Except.ok ⟨round1 (100 * s), sc.2, _conf sc.2, d.take 3⟩

/-- The Study-Spot scorer. -/
def study_spot (r : Record) : Except Unit VibeResult :=
  (study_spot_norms r).bind fun (a, b, c, d, e, f) =>
  study_spot_core a b c d e f

/-- Normalization phase of `family_friendly`; the parks strength comes
from the argument, else the raw `nearby_parks_norm` field, else stays
absent. -/
def family_friendly_norms (r : Record) (parks : Option ℚ) :
    Except Unit (ℚ × ℚ × ℚ × ℚ × ℚ × Val) :=
  (norm_0_5 (rGetD r "space_score" (rGet r "seating_comfort_score"))).bind fun spaceN =>
  (norm_0_5 (rGet r "parking_score")).bind fun parkingN =>
  (norm_mid_noise_bonus (rGet r "noise_score")).bind fun midN =>
  (norm_0_5 (rGetD r "kids_snacks_score" (rGet r "dessert_score"))).bind fun kidsN =>
  Except.ok (pyOr spaceN 0.5, pyOr (bool_norm (rGet r "restroom_access")) 0.5,
             pyOr parkingN 0.5, pyOr midN 0.5, pyOr kidsN 0.5,
             (match parks with
              | some q => Val.vnum q
              | none => _nz (rGet r "nearby_parks_norm") Val.vnone))

/-- The parks driver test of `family_friendly`: Python
`if parks and parks >= 0.6` — the truthiness test short-circuits, so the
comparison (which raises on non-numeric values) only runs on truthy
values. -/
def parksDriver (parksV : Val) : Except Unit (List String) :=
  if pyTruthy parksV then
    match pyGeQ parksV 0.6 with
    | Except.error e => Except.error e
    | Except.ok b => Except.ok (if b then ["park nearby"] else [])
  else Except.ok []

/-- Scoring phase of `family_friendly`; the parks pair may be absent. -/
def family_friendly_core (space restroom parking noise_tol kids : ℚ)
    (parksV : Val) : Except Unit VibeResult :=
  match combine [(Val.vnum space, 0.30), (Val.vnum restroom, 0.20),
      (Val.vnum parking, 0.18), (Val.vnum noise_tol, 0.15),
      (Val.vnum kids, 0.10), (parksV, 0.07)] with
  | Except.error e => Except.error e
  | Except.ok sc =>
    (parksDriver parksV).bind fun parkD =>
    let s := sc.1 * (0.9 + 0.1 * sc.2)
    let d := (if space ≥ 0.6 then ["roomy layout"] else []) ++
             (if restroom ≥ 0.9 then ["restroom access"] else []) ++ parkD
    Except.ok ⟨round1 (100 * s), sc.2, _conf sc.2, d.take 3⟩

/-- The Family-Friendly scorer. -/
def family_friendly (r : Record) (parks : Option ℚ) : Except Unit VibeResult :=
  (family_friendly_norms r parks).bind fun (a, b, c, d, e, f) =>
  family_friendly_core a b c d e f

/-- `nn(n)` inside `compute_all_vibes`: the saturating `/5` proximity
normalization, with `None`/NaN counting as 0. -/
def nn (n : Val) : Except Unit ℚ :=
  (pyFloat (_nz n (Val.vnum 0))).bind fun f => Except.ok (clamp (f / 5))

/-- `walk = nn(n) if n is not None else None` from `compute_all_vibes`:
an absent count stays `None`, a supplied one is normalized. -/
def proximityNorm (n : Val) : Except Unit (Option ℚ) :=
  if n.isNone then Except.ok none
  else (nn n).bind fun q => Except.ok (some q)

/-- `compute_all_vibes(row, nearby_walkables_count, nearby_parks_count)`:
normalize the two optional proximity counts and run the seven scorers,
returning the insertion-ordered vibe→result mapping. -/
def compute_all_vibes (row : Record)
    (nearby_walkables_count nearby_parks_count : Val) :
    Except Unit (List (String × VibeResult)) :=
  (proximityNorm nearby_walkables_count).bind fun walk =>
  (proximityNorm nearby_parks_count).bind fun parks =>
  (work_friendly row).bind fun wf =>
  (aesthetic row).bind fun ae =>
  (grab_and_go row).bind fun gg =>
  (date_night row walk).bind fun dn =>
  (dietary_friendly row).bind fun dfr =>
  (study_spot row).bind fun ss =>
  (family_friendly row parks).bind fun ff =>
  Except.ok [("Work-Friendly", wf), ("Aesthetic", ae), ("Grab-and-Go", gg),
             ("Date-Night", dn), ("Dietary-Friendly", dfr),
             ("Study-Spot", ss), ("Family-Friendly", ff)]

/-- Insertion step of Python's stable `sorted(..., reverse=True)` by
score: an element moves past only strictly higher-scored ones, so among
equal scores the original (insertion) order is kept. -/
def insertDesc (x : String × VibeResult) :
    List (String × VibeResult) → List (String × VibeResult)
  | [] => [x]
  | y :: ys =>
    if x.2.score < y.2.score then y :: insertDesc x ys else x :: y :: ys

/-- Stable descending sort by score. -/
def sortDesc : List (String × VibeResult) → List (String × VibeResult)
  | [] => []
  | x :: xs => insertDesc x (sortDesc xs)

/-- `best_vibes(results, top_k)`: the `top_k` highest-scoring vibes in
stable descending order (the source defaults `top_k` to 2). -/
def best_vibes (results : List (String × VibeResult)) (top_k : ℕ) :
    List (String × VibeResult) :=
  (sortDesc results).take top_k

/-- Render a rational for the narrative text.  (Python would print the
float; the exact digits are irrelevant to every claim, so the rendering
is abstracted to num/den form.) -/
def ratStr (q : ℚ) : String := toString q.num ++ "/" ++ toString q.den

/-- `narrative_one_liner`: pick the top vibe (`best_vibes(results,1)[0]`,
an `IndexError` — modelled as an exception — when `results` is empty)
and build the sentence from drivers, optional walk context, optional
late-hours mention and the confidence. -/
def narrative_one_liner (shop_name : String)
    (results : List (String × VibeResult)) (walk_time_min : Option ℚ)
    (poi_names : Option (List String)) (late_days_str : Option String) :
    Except Unit String :=
  match best_vibes results 1 with
  | [] => Except.error ()
  | (vibe, vr) :: _ =>
    let driversTxt := if vr.drivers.isEmpty then "solid fundamentals"
                      else String.intercalate ", " vr.drivers
    let bits := ["**" ++ shop_name ++ "** is strong for **" ++ vibe ++
                 "** thanks to " ++ driversTxt ++ "."]
    let bits := bits ++
      (match walk_time_min, poi_names with
       | some w, some ns =>
         if w ≠ 0 ∧ ns ≠ [] then
           ["It’s about a " ++ ratStr w ++ "-min walk to " ++
            String.intercalate " and " (ns.take 2) ++ "."]
         else []
       | _, _ => [])
    let bits := bits ++
      (match late_days_str with
       | some ld =>
         if ld ≠ "" ∧ "open late" ∉ vr.drivers then ["Open late " ++ ld ++ "."]
         else []
       | none => [])
    Except.ok (String.intercalate " " (bits ++ ["Data confidence: " ++ vr.confidence ++ "."]))

/-- Scalar values that the numeric paths of the engine accept without
raising: `None`, a number, NaN, or a bool — the shapes the spec's data
model allows for a scalar attribute. -/
def scalarSafe : Val → Bool
  | Val.vnone => true
  | Val.vnum _ => true
  | Val.vnan => true
  | Val.vbool _ => true
  | _ => false

/-- An hours entry is harmless if, whenever it is a 2-element list (the
only shape the loop consumes), both endpoints are safe scalars. -/
def entrySafe : String × Val → Bool
  | (_, Val.vlist [o, c]) => scalarSafe o && scalarSafe c
  | _ => true

/-- An `hours_json` value is harmless if it is not a dict (then the
normalizers return `None`) or has only safe entries. -/
def hoursSafe : Val → Bool
  | Val.vdict entries => entries.all entrySafe
  | _ => true

/-- A record conforming to the spec's data model: every attribute is an
optional scalar, except `hours_json` which may be a weekly-hours dict. -/
def recordSafe (r : Record) : Bool :=
  r.all (fun p => if p.1 = "hours_json" then hoursSafe p.2 else scalarSafe p.2)

/-- Whether a value is a Python dict. -/
def Val.isDict : Val → Bool
  | Val.vdict _ => true
  | _ => false

/-- Modelled from the spec: the overlap of a non-wrapping day span
`[o, c]` with the early window ending at 7.5. -/
def dayEarlyOverlap (o c : ℚ) : ℚ := max 0 (min c 7.5 - o)

/-- Modelled from the spec: the overlap of a non-wrapping day span
`[o, c]` (with `c ≤ 24`) with the late window starting at 19. -/
def dayLateOverlap (o c : ℚ) : ℚ := max 0 (c - max o 19)

/-- A well-formed, non-wrapping hours entry: a 2-element list of numbers
with `0 ≤ open < close ≤ 24`. -/
def hoursWF : String × Val → Bool
  | (_, Val.vlist [Val.vnum o, Val.vnum c]) =>
    decide (0 ≤ o) && decide (o < c) && decide (c ≤ 24)
  | _ => false

/-- The span `close - open` of a well-formed entry. -/
def entrySpan : String × Val → ℚ
  | (_, Val.vlist [Val.vnum o, Val.vnum c]) => c - o
  | _ => 0

/-- The early-window overlap of a well-formed entry. -/
def entryEarly : String × Val → ℚ
  | (_, Val.vlist [Val.vnum o, Val.vnum c]) => dayEarlyOverlap o c
  | _ => 0

/-- The late-window overlap of a well-formed entry. -/
def entryLate : String × Val → ℚ
  | (_, Val.vlist [Val.vnum o, Val.vnum c]) => dayLateOverlap o c
  | _ => 0

theorem scalarSafe_toPF (v : Val) (hs : scalarSafe v = true) (hn : v.isNone = false) :
    ∃ pf, toPF v = some pf := by
  cases v <;> simp_all [scalarSafe, Val.isNone, toPF]

theorem sumMulAux_ok (l : List (Val × ℚ)) (acc : PF)
    (h : ∀ p ∈ l, ∃ pf, toPF p.1 = some pf) :
    ∃ out, sumMulAux acc l = Except.ok out := by
  induction l generalizing acc with
  | nil => exact ⟨acc, rfl⟩
  | cons p rest ih =>
    obtain ⟨pf, hpf⟩ := h p (List.mem_cons_self p rest)
    have hrest := fun q hq => h q (List.mem_cons_of_mem p hq)
    cases pf with
    | num q => simpa [sumMulAux, pyMulW, hpf] using ih (PF.add acc (PF.num (q * p.2))) hrest
    | nan => simpa [sumMulAux, pyMulW, hpf] using ih (PF.add acc PF.nan) hrest

theorem presParts_present (parts : List (Val × ℚ))
    (h : ∀ p ∈ parts, p.1.isNone = false ∧ 0 < p.2) :
    presParts parts = parts := by
  apply List.filter_eq_self.mpr
  intro p hp
  simp [(h p hp).1, (h p hp).2]

theorem totalW_pos_weights (parts : List (Val × ℚ))
    (h : ∀ p ∈ parts, 0 < p.2) :
    totalW parts = (parts.map Prod.snd).sum := by
  unfold totalW
  rw [List.filter_eq_self.mpr]
  intro p hp
  simp [h p hp]

theorem combine_scalar_pos (parts : List (Val × ℚ))
    (hw : ∀ p ∈ parts, 0 < p.2)
    (hs : ∀ p ∈ parts, scalarSafe p.1 = true)
    (hp : presParts parts ≠ []) :
    ∃ s, combine parts =
        Except.ok (s, clamp (((presParts parts).map Prod.snd).sum / totalW parts)) ∧
      0 ≤ s ∧ s ≤ 1 := by
  have htw : totalW parts = (parts.map Prod.snd).sum := totalW_pos_weights parts hw
  have hne : parts ≠ [] := by
    intro h0
    apply hp
    simp [h0, presParts]
  have hpos : 0 < (parts.map Prod.snd).sum := by
    apply List.sum_pos
    · intro a ha
      obtain ⟨p, hpm, rfl⟩ := List.mem_map.mp ha
      exact hw p hpm
    · simpa using hne
  obtain ⟨out, hout⟩ := sumMulAux_ok (presParts parts) (PF.num 0) (fun p hpm => by
    have hmem := List.mem_filter.mp hpm
    have hb := hmem.2
    simp only [Bool.and_eq_true, Bool.not_eq_true'] at hb
    exact scalarSafe_toPF p.1 (hs p hmem.1) hb.1)
  refine ⟨pfClamp (PF.div out (PF.num ((presParts parts).map Prod.snd).sum)), ?_, ?_, ?_⟩
  · simp only [combine]
    rw [if_neg, hout]
    push_neg
    refine ⟨by rw [htw]; linarith, by simpa [List.isEmpty_iff] using hp⟩
  · cases PF.div out (PF.num ((presParts parts).map Prod.snd).sum) with
    | num q => exact le_max_left 0 _
    | nan => norm_num [pfClamp]
  · cases PF.div out (PF.num ((presParts parts).map Prod.snd).sum) with
    | num q => exact max_le (by norm_num) (min_le_left _ _)
    | nan => norm_num [pfClamp]

theorem combine_present_scalar (parts : List (Val × ℚ))
    (h : ∀ p ∈ parts, p.1.isNone = false ∧ scalarSafe p.1 = true ∧ 0 < p.2)
    (hne : parts ≠ []) :
    ∃ s, combine parts = Except.ok (s, 1) ∧ 0 ≤ s ∧ s ≤ 1 := by
  have hpres : presParts parts = parts :=
    presParts_present parts (fun p hp => ⟨(h p hp).1, (h p hp).2.2⟩)
  have htw : totalW parts = (parts.map Prod.snd).sum :=
    totalW_pos_weights parts (fun p hp => (h p hp).2.2)
  have hpos : 0 < (parts.map Prod.snd).sum := by
    apply List.sum_pos
    · intro a ha
      obtain ⟨p, hp, rfl⟩ := List.mem_map.mp ha
      exact (h p hp).2.2
    · simpa using hne
  obtain ⟨s, hc, h0, h1⟩ := combine_scalar_pos parts (fun p hp => (h p hp).2.2)
    (fun p hp => (h p hp).2.1) (by rw [hpres]; exact hne)
  rw [hpres, htw, div_self (ne_of_gt hpos)] at hc
  refine ⟨s, ?_, h0, h1⟩
  rw [hc]
  norm_num [clamp]

theorem combine_safe (parts : List (Val × ℚ))
    (hs : ∀ p ∈ parts, scalarSafe p.1 = true) :
    ∃ out, combine parts = Except.ok out := by
  by_cases hcond : totalW parts ≤ 0 ∨ (presParts parts).isEmpty = true
  · exact ⟨(0, 0), by simp only [combine]; rw [if_pos hcond]⟩
  · obtain ⟨out, hout⟩ := sumMulAux_ok (presParts parts) (PF.num 0) (fun p hpm => by
      have hmem := List.mem_filter.mp hpm
      have hb := hmem.2
      simp only [Bool.and_eq_true, Bool.not_eq_true'] at hb
      exact scalarSafe_toPF p.1 (hs p hmem.1) hb.1)
    exact ⟨_, by simp only [combine]; rw [if_neg hcond, hout]⟩

theorem dn_core_inv (amb dessert late aest : ℚ) (walkV : Val) (clean : ℚ)
    (vr : VibeResult)
    (hok : date_night_core amb dessert late aest walkV clean = Except.ok vr) :
    vr.confidence = "High" ∧ 0.88 ≤ vr.coverage := by
  cases walkV with
  | vnone =>
    have hpres : presParts
        [(Val.vnum amb, 0.25), (Val.vnum dessert, 0.20), (Val.vnum late, 0.18),
         (Val.vnum aest, 0.15), (Val.vnone, 0.12), (Val.vnum clean, 0.10)] =
        [(Val.vnum amb, 0.25), (Val.vnum dessert, 0.20), (Val.vnum late, 0.18),
         (Val.vnum aest, 0.15), (Val.vnum clean, 0.10)] := by
      norm_num [presParts, List.filter, Val.isNone]
    have htw : totalW
        [(Val.vnum amb, 0.25), (Val.vnum dessert, 0.20), (Val.vnum late, 0.18),
         (Val.vnum aest, 0.15), (Val.vnone, 0.12), (Val.vnum clean, 0.10)] = 1 := by
      norm_num [totalW, List.filter]
    obtain ⟨s, hc, _, _⟩ := combine_scalar_pos
      [(Val.vnum amb, 0.25), (Val.vnum dessert, 0.20), (Val.vnum late, 0.18),
       (Val.vnum aest, 0.15), (Val.vnone, 0.12), (Val.vnum clean, 0.10)]
      (by
        intro p hp
        simp only [List.mem_cons, List.not_mem_nil, or_false] at hp
        rcases hp with rfl|rfl|rfl|rfl|rfl|rfl <;> norm_num)
      (by
        intro p hp
        simp only [List.mem_cons, List.not_mem_nil, or_false] at hp
        rcases hp with rfl|rfl|rfl|rfl|rfl|rfl <;> simp [scalarSafe])
      (by rw [hpres]; simp)
    rw [hpres, htw] at hc
    unfold date_night_core at hok
    rw [hc] at hok
    simp only [Except.ok.injEq] at hok
    subst hok
    constructor
    · norm_num [_conf, clamp, min_def, max_def]
    · norm_num [clamp, min_def, max_def]
  | vnum q =>
    obtain ⟨s, hc, _, _⟩ := combine_present_scalar
      [(Val.vnum amb, 0.25), (Val.vnum dessert, 0.20), (Val.vnum late, 0.18),
       (Val.vnum aest, 0.15), (Val.vnum q, 0.12), (Val.vnum clean, 0.10)]
      (by
        intro p hp
        simp only [List.mem_cons, List.not_mem_nil, or_false] at hp
        rcases hp with rfl|rfl|rfl|rfl|rfl|rfl <;> exact ⟨rfl, rfl, by norm_num⟩)
      (by simp)
    unfold date_night_core at hok
    rw [hc] at hok
    simp only [Except.ok.injEq] at hok
    subst hok
    exact ⟨by norm_num [_conf], by norm_num⟩
  | vbool b =>
    obtain ⟨s, hc, _, _⟩ := combine_present_scalar
      [(Val.vnum amb, 0.25), (Val.vnum dessert, 0.20), (Val.vnum late, 0.18),
       (Val.vnum aest, 0.15), (Val.vbool b, 0.12), (Val.vnum clean, 0.10)]
      (by
        intro p hp
        simp only [List.mem_cons, List.not_mem_nil, or_false] at hp
        rcases hp with rfl|rfl|rfl|rfl|rfl|rfl <;> exact ⟨rfl, rfl, by norm_num⟩)
      (by simp)
    unfold date_night_core at hok
    rw [hc] at hok
    simp only [Except.ok.injEq] at hok
    subst hok
    exact ⟨by norm_num [_conf], by norm_num⟩
  | vnan =>
    obtain ⟨s, hc, _, _⟩ := combine_present_scalar
      [(Val.vnum amb, 0.25), (Val.vnum dessert, 0.20), (Val.vnum late, 0.18),
       (Val.vnum aest, 0.15), (Val.vnan, 0.12), (Val.vnum clean, 0.10)]
      (by
        intro p hp
        simp only [List.mem_cons, List.not_mem_nil, or_false] at hp
        rcases hp with rfl|rfl|rfl|rfl|rfl|rfl <;> exact ⟨rfl, rfl, by norm_num⟩)
      (by simp)
    unfold date_night_core at hok
    rw [hc] at hok
    simp only [Except.ok.injEq] at hok
    subst hok
    exact ⟨by norm_num [_conf], by norm_num⟩
  | vstr s =>
    exfalso
    unfold date_night_core at hok
    norm_num [combine, presParts, totalW, List.filter, Val.isNone, sumMulAux,
      pyMulW, toPF, PF.add, List.isEmpty] at hok
    exact Except.noConfusion hok
  | vlist l =>
    exfalso
    unfold date_night_core at hok
    norm_num [combine, presParts, totalW, List.filter, Val.isNone, sumMulAux,
      pyMulW, toPF, PF.add, List.isEmpty] at hok
    exact Except.noConfusion hok
  | vdict l =>
    exfalso
    unfold date_night_core at hok
    norm_num [combine, presParts, totalW, List.filter, Val.isNone, sumMulAux,
      pyMulW, toPF, PF.add, List.isEmpty] at hok
    exact Except.noConfusion hok

theorem wf_core_ok (a b c d e f g h : ℚ) :
    ∃ vr, work_friendly_core a b c d e f g h = Except.ok vr := by
  obtain ⟨s, hc, _, _⟩ := combine_present_scalar
    [(Val.vnum a, 0.22), (Val.vnum b, 0.18), (Val.vnum c, 0.15), (Val.vnum d, 0.12),
     (Val.vnum e, 0.10), (Val.vnum f, 0.10), (Val.vnum g, 0.08), (Val.vnum h, 0.05)]
    (by
      intro p hp
      simp only [List.mem_cons, List.not_mem_nil, or_false] at hp
      rcases hp with rfl|rfl|rfl|rfl|rfl|rfl|rfl|rfl <;> exact ⟨rfl, rfl, by norm_num⟩)
    (by simp)
  unfold work_friendly_core
  rw [hc]
  exact ⟨_, rfl⟩

theorem wf_core_inv (a b c d e f g h : ℚ) (vr : VibeResult)
    (hok : work_friendly_core a b c d e f g h = Except.ok vr) :
    vr.coverage = 1 ∧ vr.confidence = "High" := by
  obtain ⟨s, hc, _, _⟩ := combine_present_scalar
    [(Val.vnum a, 0.22), (Val.vnum b, 0.18), (Val.vnum c, 0.15), (Val.vnum d, 0.12),
     (Val.vnum e, 0.10), (Val.vnum f, 0.10), (Val.vnum g, 0.08), (Val.vnum h, 0.05)]
    (by
      intro p hp
      simp only [List.mem_cons, List.not_mem_nil, or_false] at hp
      rcases hp with rfl|rfl|rfl|rfl|rfl|rfl|rfl|rfl <;> exact ⟨rfl, rfl, by norm_num⟩)
    (by simp)
  unfold work_friendly_core at hok
  rw [hc] at hok
  simp only [Except.ok.injEq] at hok
  subst hok
  norm_num [_conf]

-- record access safety
theorem rGetOpt_mem (r : Record) (k : String) (v : Val)
    (h : rGetOpt r k = some v) : (k, v) ∈ r := by
  induction r with
  | nil => simp [rGetOpt] at h
  | cons p rest ih =>
    simp only [rGetOpt] at h
    split at h
    · next hk =>
        injection h with h2
        subst h2
        rw [← hk]
        exact List.mem_cons_self p rest
    · next hk => exact List.mem_cons_of_mem p (ih h)

theorem rGet_scalarSafe (r : Record) (hr : recordSafe r = true) (k : String)
    (hk : k ≠ "hours_json") : scalarSafe (rGet r k) = true := by
  unfold rGet rGetD
  cases hv : rGetOpt r k with
  | none => simp [scalarSafe]
  | some v =>
    have hmem := rGetOpt_mem r k v hv
    have := (List.all_eq_true.mp hr) _ hmem
    simpa [hk] using this

theorem rGet_hoursSafe (r : Record) (hr : recordSafe r = true) :
    hoursSafe (rGet r "hours_json") = true := by
  unfold rGet rGetD
  cases hv : rGetOpt r "hours_json" with
  | none => simp [hoursSafe]
  | some v =>
    have hmem := rGetOpt_mem r _ v hv
    have := (List.all_eq_true.mp hr) _ hmem
    simpa using this

theorem rGetD_scalarSafe (r : Record) (hr : recordSafe r = true) (k : String)
    (hk : k ≠ "hours_json") (d : Val) (hd : scalarSafe d = true) :
    scalarSafe (rGetD r k d) = true := by
  unfold rGetD
  cases hv : rGetOpt r k with
  | none => simpa using hd
  | some v =>
    have hmem := rGetOpt_mem r k v hv
    have := (List.all_eq_true.mp hr) _ hmem
    simpa [hk] using this

theorem _nz_safe (v d : Val) (hv : scalarSafe v = true) (hd : scalarSafe d = true) :
    scalarSafe (_nz v d) = true := by
  cases v <;> simp_all [_nz, scalarSafe]

theorem optV_safe (o : Option ℚ) : scalarSafe (optV o) = true := by
  cases o <;> simp [optV, scalarSafe]

-- normalizer safety
theorem norm_0_5_safe (v : Val) (hs : scalarSafe v = true) :
    ∃ o, norm_0_5 v = Except.ok o := by
  cases v <;> simp_all [norm_0_5, _nz, pyFloat, scalarSafe]

theorem norm_seating_safe (v : Val) (hs : scalarSafe v = true) :
    ∃ o, norm_seating v = Except.ok o := by
  cases v <;> simp_all [norm_seating, _nz, pyFloat, scalarSafe]

theorem norm_price_index_safe (v : Val) (hs : scalarSafe v = true) :
    ∃ o, norm_price_index v = Except.ok o := by
  cases v <;> simp_all [norm_price_index, _nz, pyFloat, scalarSafe]

theorem norm_df_milks_safe (v : Val) (hs : scalarSafe v = true) :
    ∃ o, norm_df_milks v = Except.ok o := by
  cases v <;> simp_all [norm_df_milks, _nz, pyFloat, scalarSafe]

theorem norm_noise_inverse_safe (v : Val) (hs : scalarSafe v = true) :
    ∃ o, norm_noise_inverse v = Except.ok o := by
  obtain ⟨o, ho⟩ := norm_0_5_safe v hs
  cases o <;> simp [norm_noise_inverse, ho]

theorem norm_mid_noise_bonus_safe (v : Val) (hs : scalarSafe v = true) :
    ∃ o, norm_mid_noise_bonus v = Except.ok o := by
  obtain ⟨o, ho⟩ := norm_0_5_safe v hs
  cases o <;> simp [norm_mid_noise_bonus, ho]

theorem clampVal_nz_safe (v : Val) (hs : scalarSafe v = true) :
    ∃ q, clampVal (_nz v (Val.vnum 0.2)) = Except.ok q := by
  cases v <;> simp_all [clampVal, _nz, scalarSafe]

theorem lateStep_safe (acc : PF × PF) (p : String × Val)
    (hp : entrySafe p = true) : ∃ a2, lateStep acc p = Except.ok a2 := by
  obtain ⟨k, v⟩ := p
  cases v with
  | vlist items =>
    rcases items with _ | ⟨o, _ | ⟨c, _ | ⟨x, rest⟩⟩⟩
    · exact ⟨acc, rfl⟩
    · exact ⟨acc, rfl⟩
    · have hoc : scalarSafe o = true ∧ scalarSafe c = true := by
        simpa [entrySafe] using hp
      cases o <;> cases c <;> simp_all [lateStep, toPF, scalarSafe]
    · exact ⟨acc, rfl⟩
  | vnone => exact ⟨acc, rfl⟩
  | vnum q => exact ⟨acc, rfl⟩
  | vnan => exact ⟨acc, rfl⟩
  | vbool b => exact ⟨acc, rfl⟩
  | vstr s => exact ⟨acc, rfl⟩
  | vdict entries => exact ⟨acc, rfl⟩

theorem earlyStep_safe (acc : PF × PF) (p : String × Val)
    (hp : entrySafe p = true) : ∃ a2, earlyStep acc p = Except.ok a2 := by
  obtain ⟨k, v⟩ := p
  cases v with
  | vlist items =>
    rcases items with _ | ⟨o, _ | ⟨c, _ | ⟨x, rest⟩⟩⟩
    · exact ⟨acc, rfl⟩
    · exact ⟨acc, rfl⟩
    · have hoc : scalarSafe o = true ∧ scalarSafe c = true := by
        simpa [entrySafe] using hp
      cases o <;> cases c <;> simp_all [earlyStep, toPF, scalarSafe]
    · exact ⟨acc, rfl⟩
  | vnone => exact ⟨acc, rfl⟩
  | vnum q => exact ⟨acc, rfl⟩
  | vnan => exact ⟨acc, rfl⟩
  | vbool b => exact ⟨acc, rfl⟩
  | vstr s => exact ⟨acc, rfl⟩
  | vdict entries => exact ⟨acc, rfl⟩

theorem lateFold_safe (entries : List (String × Val)) (acc : PF × PF)
    (h : ∀ p ∈ entries, entrySafe p = true) :
    ∃ out, lateFold acc entries = Except.ok out := by
  induction entries generalizing acc with
  | nil => exact ⟨acc, rfl⟩
  | cons p rest ih =>
    obtain ⟨a2, ha2⟩ := lateStep_safe acc p (h p (List.mem_cons_self p rest))
    obtain ⟨out, hout⟩ := ih a2 (fun q hq => h q (List.mem_cons_of_mem p hq))
    exact ⟨out, by simp [lateFold, ha2, hout]⟩

theorem earlyFold_safe (entries : List (String × Val)) (acc : PF × PF)
    (h : ∀ p ∈ entries, entrySafe p = true) :
    ∃ out, earlyFold acc entries = Except.ok out := by
  induction entries generalizing acc with
  | nil => exact ⟨acc, rfl⟩
  | cons p rest ih =>
    obtain ⟨a2, ha2⟩ := earlyStep_safe acc p (h p (List.mem_cons_self p rest))
    obtain ⟨out, hout⟩ := ih a2 (fun q hq => h q (List.mem_cons_of_mem p hq))
    exact ⟨out, by simp [earlyFold, ha2, hout]⟩

theorem norm_hours_late_safe (v : Val) (hv : hoursSafe v = true) :
    ∃ o, norm_hours_late v = Except.ok o := by
  cases v with
  | vdict entries =>
    by_cases he : entries.isEmpty = true
    · exact ⟨none, by simp [norm_hours_late, he]⟩
    · obtain ⟨out, hout⟩ := lateFold_safe entries (PF.num 0, PF.num 0)
        (fun p hp => (List.all_eq_true.mp (by simpa [hoursSafe] using hv)) p hp)
      by_cases ht : PF.le out.1 (PF.num 0) = true
      · exact ⟨none, by simp [norm_hours_late, he, hout, ht]⟩
      · refine ⟨some (pfClamp (PF.div out.2 out.1)), ?_⟩
        simp [norm_hours_late, he, hout, ht]
  | vnone => exact ⟨none, rfl⟩
  | vnum q => exact ⟨none, rfl⟩
  | vnan => exact ⟨none, rfl⟩
  | vbool b => exact ⟨none, rfl⟩
  | vstr s => exact ⟨none, rfl⟩
  | vlist items => exact ⟨none, rfl⟩

theorem norm_hours_early_safe (v : Val) (hv : hoursSafe v = true) :
    ∃ o, norm_hours_early v = Except.ok o := by
  cases v with
  | vdict entries =>
    by_cases he : entries.isEmpty = true
    · exact ⟨none, by simp [norm_hours_early, he]⟩
    · obtain ⟨out, hout⟩ := earlyFold_safe entries (PF.num 0, PF.num 0)
        (fun p hp => (List.all_eq_true.mp (by simpa [hoursSafe] using hv)) p hp)
      by_cases ht : PF.le out.1 (PF.num 0) = true
      · exact ⟨none, by simp [norm_hours_early, he, hout, ht]⟩
      · refine ⟨some (pfClamp (PF.div out.2 out.1)), ?_⟩
        simp [norm_hours_early, he, hout, ht]
  | vnone => exact ⟨none, rfl⟩
  | vnum q => exact ⟨none, rfl⟩
  | vnan => exact ⟨none, rfl⟩
  | vbool b => exact ⟨none, rfl⟩
  | vstr s => exact ⟨none, rfl⟩
  | vlist items => exact ⟨none, rfl⟩

-- core success lemmas, via combine_safe: the combined strengths are
-- always safe scalars, so the scoring phase cannot raise.
theorem aesthetic_core_ok (a b c d e f : ℚ) :
    ∃ vr, aesthetic_core a b c d e f = Except.ok vr := by
  obtain ⟨out, hout⟩ := combine_safe
    [(Val.vnum a, 0.40), (Val.vnum b, 0.20), (Val.vnum c, 0.15),
     (Val.vnum d, 0.10), (Val.vnum e, 0.10), (Val.vnum f, 0.05)]
    (by
      intro p hp
      simp only [List.mem_cons, List.not_mem_nil, or_false] at hp
      rcases hp with rfl|rfl|rfl|rfl|rfl|rfl <;> rfl)
  unfold aesthetic_core
  rw [hout]
  exact ⟨_, rfl⟩

theorem grab_and_go_core_ok (a b c d e : ℚ) :
    ∃ vr, grab_and_go_core a b c d e = Except.ok vr := by
  obtain ⟨out, hout⟩ := combine_safe
    [(Val.vnum (clamp (0.4 + 0.3 * c + 0.3 * d - 0.2 * e)), 0.35),
     (Val.vnum a, 0.25), (Val.vnum b, 0.15), (Val.vnum c, 0.15), (Val.vnum d, 0.10)]
    (by
      intro p hp
      simp only [List.mem_cons, List.not_mem_nil, or_false] at hp
      rcases hp with rfl|rfl|rfl|rfl|rfl <;> rfl)
  unfold grab_and_go_core
  rw [hout]
  exact ⟨_, rfl⟩

theorem dietary_friendly_core_ok (a b c d e : ℚ) :
    ∃ vr, dietary_friendly_core a b c d e = Except.ok vr := by
  obtain ⟨out, hout⟩ := combine_safe
    [(Val.vnum a, 0.40), (Val.vnum b, 0.28), (Val.vnum c, 0.12),
     (Val.vnum d, 0.10), (Val.vnum e, 0.10)]
    (by
      intro p hp
      simp only [List.mem_cons, List.not_mem_nil, or_false] at hp
      rcases hp with rfl|rfl|rfl|rfl|rfl <;> rfl)
  unfold dietary_friendly_core
  rw [hout]
  exact ⟨_, rfl⟩

theorem study_spot_core_ok (a b c d e f : ℚ) :
    ∃ vr, study_spot_core a b c d e f = Except.ok vr := by
  obtain ⟨out, hout⟩ := combine_safe
    [(Val.vnum a, 0.28), (Val.vnum b, 0.22), (Val.vnum c, 0.18),
     (Val.vnum d, 0.12), (Val.vnum e, 0.10), (Val.vnum f, 0.10)]
    (by
      intro p hp
      simp only [List.mem_cons, List.not_mem_nil, or_false] at hp
      rcases hp with rfl|rfl|rfl|rfl|rfl|rfl <;> rfl)
  unfold study_spot_core
  rw [hout]
  exact ⟨_, rfl⟩

theorem dn_core_ok (amb dessert late aest : ℚ) (walkV : Val) (clean : ℚ)
    (hs : scalarSafe walkV = true) :
    ∃ vr, date_night_core amb dessert late aest walkV clean = Except.ok vr := by
  obtain ⟨out, hout⟩ := combine_safe
    [(Val.vnum amb, 0.25), (Val.vnum dessert, 0.20), (Val.vnum late, 0.18),
     (Val.vnum aest, 0.15), (walkV, 0.12), (Val.vnum clean, 0.10)]
    (by
      intro p hp
      simp only [List.mem_cons, List.not_mem_nil, or_false] at hp
      rcases hp with rfl|rfl|rfl|rfl|rfl|rfl
      · rfl
      · rfl
      · rfl
      · rfl
      · exact hs
      · rfl)
  unfold date_night_core
  rw [hout]
  exact ⟨_, rfl⟩

/-- The parks-driver test of `family_friendly` cannot raise on a safe
scalar (the short-circuit skips the comparison on falsy values). -/
theorem parkD_ok (v : Val) (hs : scalarSafe v = true) :
    ∃ dl, parksDriver v = Except.ok dl := by
  cases v with
  | vnone => exact ⟨[], rfl⟩
  | vnum q =>
    by_cases hq : pyTruthy (Val.vnum q) = true
    · simp [parksDriver, hq, pyGeQ, toPF]
    · simp [parksDriver, Bool.of_not_eq_true hq]
  | vnan => exact ⟨[], by simp [parksDriver, pyTruthy, pyGeQ, toPF]⟩
  | vbool b => cases b <;> simp [parksDriver, pyTruthy, pyGeQ, toPF]
  | vstr s => simp [scalarSafe] at hs
  | vlist l => simp [scalarSafe] at hs
  | vdict l => simp [scalarSafe] at hs

theorem ff_core_ok (space restroom parking noise_tol kids : ℚ) (parksV : Val)
    (hs : scalarSafe parksV = true) :
    ∃ vr, family_friendly_core space restroom parking noise_tol kids parksV =
      Except.ok vr := by
  obtain ⟨out, hout⟩ := combine_safe
    [(Val.vnum space, 0.30), (Val.vnum restroom, 0.20), (Val.vnum parking, 0.18),
     (Val.vnum noise_tol, 0.15), (Val.vnum kids, 0.10), (parksV, 0.07)]
    (by
      intro p hp
      simp only [List.mem_cons, List.not_mem_nil, or_false] at hp
      rcases hp with rfl|rfl|rfl|rfl|rfl|rfl
      · rfl
      · rfl
      · rfl
      · rfl
      · rfl
      · exact hs)
  obtain ⟨dl, hdl⟩ := parkD_ok parksV hs
  unfold family_friendly_core
  rw [hout, hdl]
  exact ⟨_, rfl⟩

theorem aesthetic_core_inv (a b c d e f : ℚ) (vr : VibeResult)
    (hok : aesthetic_core a b c d e f = Except.ok vr) :
    vr.coverage = 1 ∧ vr.confidence = "High" := by
  obtain ⟨s, hc, _, _⟩ := combine_present_scalar
    [(Val.vnum a, 0.40), (Val.vnum b, 0.20), (Val.vnum c, 0.15),
     (Val.vnum d, 0.10), (Val.vnum e, 0.10), (Val.vnum f, 0.05)]
    (by
      intro p hp
      simp only [List.mem_cons, List.not_mem_nil, or_false] at hp
      rcases hp with rfl|rfl|rfl|rfl|rfl|rfl <;> exact ⟨rfl, rfl, by norm_num⟩)
    (by simp)
  unfold aesthetic_core at hok
  rw [hc] at hok
  simp only [Except.ok.injEq] at hok
  subst hok
  norm_num [_conf]

theorem grab_and_go_core_inv (a b c d e : ℚ) (vr : VibeResult)
    (hok : grab_and_go_core a b c d e = Except.ok vr) :
    vr.coverage = 1 ∧ vr.confidence = "High" := by
  obtain ⟨s, hc, _, _⟩ := combine_present_scalar
    [(Val.vnum (clamp (0.4 + 0.3 * c + 0.3 * d - 0.2 * e)), 0.35),
     (Val.vnum a, 0.25), (Val.vnum b, 0.15), (Val.vnum c, 0.15), (Val.vnum d, 0.10)]
    (by
      intro p hp
      simp only [List.mem_cons, List.not_mem_nil, or_false] at hp
      rcases hp with rfl|rfl|rfl|rfl|rfl <;> exact ⟨rfl, rfl, by norm_num⟩)
    (by simp)
  unfold grab_and_go_core at hok
  rw [hc] at hok
  simp only [Except.ok.injEq] at hok
  subst hok
  norm_num [_conf]

theorem dietary_friendly_core_inv (a b c d e : ℚ) (vr : VibeResult)
    (hok : dietary_friendly_core a b c d e = Except.ok vr) :
    vr.coverage = 1 ∧ vr.confidence = "High" := by
  obtain ⟨s, hc, _, _⟩ := combine_present_scalar
    [(Val.vnum a, 0.40), (Val.vnum b, 0.28), (Val.vnum c, 0.12),
     (Val.vnum d, 0.10), (Val.vnum e, 0.10)]
    (by
      intro p hp
      simp only [List.mem_cons, List.not_mem_nil, or_false] at hp
      rcases hp with rfl|rfl|rfl|rfl|rfl <;> exact ⟨rfl, rfl, by norm_num⟩)
    (by simp)
  unfold dietary_friendly_core at hok
  rw [hc] at hok
  simp only [Except.ok.injEq] at hok
  subst hok
  norm_num [_conf]

theorem study_spot_core_inv (a b c d e f : ℚ) (vr : VibeResult)
    (hok : study_spot_core a b c d e f = Except.ok vr) :
    vr.coverage = 1 ∧ vr.confidence = "High" := by
  obtain ⟨s, hc, _, _⟩ := combine_present_scalar
    [(Val.vnum a, 0.28), (Val.vnum b, 0.22), (Val.vnum c, 0.18),
     (Val.vnum d, 0.12), (Val.vnum e, 0.10), (Val.vnum f, 0.10)]
    (by
      intro p hp
      simp only [List.mem_cons, List.not_mem_nil, or_false] at hp
      rcases hp with rfl|rfl|rfl|rfl|rfl|rfl <;> exact ⟨rfl, rfl, by norm_num⟩)
    (by simp)
  unfold study_spot_core at hok
  rw [hc] at hok
  simp only [Except.ok.injEq] at hok
  subst hok
  norm_num [_conf]

theorem ff_core_inv (space restroom parking noise_tol kids : ℚ) (parksV : Val)
    (vr : VibeResult)
    (hok : family_friendly_core space restroom parking noise_tol kids parksV =
      Except.ok vr) :
    vr.confidence = "High" ∧ 0.88 ≤ vr.coverage := by
  cases hv : scalarSafe parksV with
  | true =>
    obtain ⟨dl, hdl⟩ := parkD_ok parksV hv
    cases parksV with
    | vnone =>
      have hpres : presParts
          [(Val.vnum space, 0.30), (Val.vnum restroom, 0.20), (Val.vnum parking, 0.18),
           (Val.vnum noise_tol, 0.15), (Val.vnum kids, 0.10), (Val.vnone, 0.07)] =
          [(Val.vnum space, 0.30), (Val.vnum restroom, 0.20), (Val.vnum parking, 0.18),
           (Val.vnum noise_tol, 0.15), (Val.vnum kids, 0.10)] := by
        norm_num [presParts, List.filter, Val.isNone]
      have htw : totalW
          [(Val.vnum space, 0.30), (Val.vnum restroom, 0.20), (Val.vnum parking, 0.18),
           (Val.vnum noise_tol, 0.15), (Val.vnum kids, 0.10), (Val.vnone, 0.07)] = 1 := by
        norm_num [totalW, List.filter]
      obtain ⟨s, hc, _, _⟩ := combine_scalar_pos
        [(Val.vnum space, 0.30), (Val.vnum restroom, 0.20), (Val.vnum parking, 0.18),
         (Val.vnum noise_tol, 0.15), (Val.vnum kids, 0.10), (Val.vnone, 0.07)]
        (by
          intro p hp
          simp only [List.mem_cons, List.not_mem_nil, or_false] at hp
          rcases hp with rfl|rfl|rfl|rfl|rfl|rfl <;> norm_num)
        (by
          intro p hp
          simp only [List.mem_cons, List.not_mem_nil, or_false] at hp
          rcases hp with rfl|rfl|rfl|rfl|rfl|rfl <;> simp [scalarSafe])
        (by rw [hpres]; simp)
      rw [hpres, htw] at hc
      unfold family_friendly_core at hok
      rw [hc, hdl] at hok
      simp only [Except.bind, Except.ok.injEq] at hok
      subst hok
      constructor
      · norm_num [_conf, clamp, min_def, max_def]
      · norm_num [clamp, min_def, max_def]
    | vnum q =>
      obtain ⟨s, hc, _, _⟩ := combine_present_scalar
        [(Val.vnum space, 0.30), (Val.vnum restroom, 0.20), (Val.vnum parking, 0.18),
         (Val.vnum noise_tol, 0.15), (Val.vnum kids, 0.10), (Val.vnum q, 0.07)]
        (by
          intro p hp
          simp only [List.mem_cons, List.not_mem_nil, or_false] at hp
          rcases hp with rfl|rfl|rfl|rfl|rfl|rfl <;> exact ⟨rfl, rfl, by norm_num⟩)
        (by simp)
      unfold family_friendly_core at hok
      rw [hc, hdl] at hok
      simp only [Except.bind, Except.ok.injEq] at hok
      subst hok
      exact ⟨by norm_num [_conf], by norm_num⟩
    | vbool b =>
      obtain ⟨s, hc, _, _⟩ := combine_present_scalar
        [(Val.vnum space, 0.30), (Val.vnum restroom, 0.20), (Val.vnum parking, 0.18),
         (Val.vnum noise_tol, 0.15), (Val.vnum kids, 0.10), (Val.vbool b, 0.07)]
        (by
          intro p hp
          simp only [List.mem_cons, List.not_mem_nil, or_false] at hp
          rcases hp with rfl|rfl|rfl|rfl|rfl|rfl <;> exact ⟨rfl, rfl, by norm_num⟩)
        (by simp)
      unfold family_friendly_core at hok
      rw [hc, hdl] at hok
      simp only [Except.bind, Except.ok.injEq] at hok
      subst hok
      exact ⟨by norm_num [_conf], by norm_num⟩
    | vnan =>
      obtain ⟨s, hc, _, _⟩ := combine_present_scalar
        [(Val.vnum space, 0.30), (Val.vnum restroom, 0.20), (Val.vnum parking, 0.18),
         (Val.vnum noise_tol, 0.15), (Val.vnum kids, 0.10), (Val.vnan, 0.07)]
        (by
          intro p hp
          simp only [List.mem_cons, List.not_mem_nil, or_false] at hp
          rcases hp with rfl|rfl|rfl|rfl|rfl|rfl <;> exact ⟨rfl, rfl, by norm_num⟩)
        (by simp)
      unfold family_friendly_core at hok
      rw [hc, hdl] at hok
      simp only [Except.bind, Except.ok.injEq] at hok
      subst hok
      exact ⟨by norm_num [_conf], by norm_num⟩
    | vstr s => simp [scalarSafe] at hv
    | vlist l => simp [scalarSafe] at hv
    | vdict l => simp [scalarSafe] at hv
  | false =>
    exfalso
    cases parksV with
    | vnone => simp [scalarSafe] at hv
    | vnum q => simp [scalarSafe] at hv
    | vnan => simp [scalarSafe] at hv
    | vbool b => simp [scalarSafe] at hv
    | vstr s =>
      unfold family_friendly_core at hok
      norm_num [combine, presParts, totalW, List.filter, Val.isNone, sumMulAux,
        pyMulW, toPF, PF.add, List.isEmpty] at hok
      exact Except.noConfusion hok
    | vlist l =>
      unfold family_friendly_core at hok
      norm_num [combine, presParts, totalW, List.filter, Val.isNone, sumMulAux,
        pyMulW, toPF, PF.add, List.isEmpty] at hok
      exact Except.noConfusion hok
    | vdict l =>
      unfold family_friendly_core at hok
      norm_num [combine, presParts, totalW, List.filter, Val.isNone, sumMulAux,
        pyMulW, toPF, PF.add, List.isEmpty] at hok
      exact Except.noConfusion hok

theorem work_friendly_inv (r : Record) (vr : VibeResult)
    (hok : work_friendly r = Except.ok vr) :
    vr.coverage = 1 ∧ vr.confidence = "High" := by
  unfold work_friendly at hok
  cases hn : work_friendly_norms r with
  | error e =>
    rw [hn] at hok
    simp [Except.bind] at hok
  | ok t =>
    rw [hn] at hok
    obtain ⟨a, b, c, d, e, f, g, h⟩ := t
    simp only [Except.bind] at hok
    exact wf_core_inv a b c d e f g h vr hok

theorem aesthetic_inv (r : Record) (vr : VibeResult)
    (hok : aesthetic r = Except.ok vr) :
    vr.coverage = 1 ∧ vr.confidence = "High" := by
  unfold aesthetic at hok
  cases hn : aesthetic_norms r with
  | error e =>
    rw [hn] at hok
    simp [Except.bind] at hok
  | ok t =>
    rw [hn] at hok
    obtain ⟨a, b, c, d, e, f⟩ := t
    simp only [Except.bind] at hok
    exact aesthetic_core_inv a b c d e f vr hok

theorem grab_and_go_inv (r : Record) (vr : VibeResult)
    (hok : grab_and_go r = Except.ok vr) :
    vr.coverage = 1 ∧ vr.confidence = "High" := by
  unfold grab_and_go at hok
  cases hn : grab_and_go_norms r with
  | error e =>
    rw [hn] at hok
    simp [Except.bind] at hok
  | ok t =>
    rw [hn] at hok
    obtain ⟨a, b, c, d, e⟩ := t
    simp only [Except.bind] at hok
    exact grab_and_go_core_inv a b c d e vr hok

theorem date_night_inv (r : Record) (walk : Option ℚ) (vr : VibeResult)
    (hok : date_night r walk = Except.ok vr) :
    vr.confidence = "High" ∧ 0.88 ≤ vr.coverage := by
  unfold date_night at hok
  cases hn : date_night_norms r walk with
  | error e =>
    rw [hn] at hok
    simp [Except.bind] at hok
  | ok t =>
    rw [hn] at hok
    obtain ⟨a, b, c, d, e, f⟩ := t
    simp only [Except.bind] at hok
    exact dn_core_inv a b c d e f vr hok

theorem dietary_friendly_inv (r : Record) (vr : VibeResult)
    (hok : dietary_friendly r = Except.ok vr) :
    vr.coverage = 1 ∧ vr.confidence = "High" := by
  unfold dietary_friendly at hok
  cases hn : dietary_friendly_norms r with
  | error e =>
    rw [hn] at hok
    simp [Except.bind] at hok
  | ok t =>
    rw [hn] at hok
    obtain ⟨a, b, c, d, e⟩ := t
    simp only [Except.bind] at hok
    exact dietary_friendly_core_inv a b c d e vr hok

theorem study_spot_inv (r : Record) (vr : VibeResult)
    (hok : study_spot r = Except.ok vr) :
    vr.coverage = 1 ∧ vr.confidence = "High" := by
  unfold study_spot at hok
  cases hn : study_spot_norms r with
  | error e =>
    rw [hn] at hok
    simp [Except.bind] at hok
  | ok t =>
    rw [hn] at hok
    obtain ⟨a, b, c, d, e, f⟩ := t
    simp only [Except.bind] at hok
    exact study_spot_core_inv a b c d e f vr hok

theorem family_friendly_inv (r : Record) (parks : Option ℚ) (vr : VibeResult)
    (hok : family_friendly r parks = Except.ok vr) :
    vr.confidence = "High" ∧ 0.88 ≤ vr.coverage := by
  unfold family_friendly at hok
  cases hn : family_friendly_norms r parks with
  | error e =>
    rw [hn] at hok
    simp [Except.bind] at hok
  | ok t =>
    rw [hn] at hok
    obtain ⟨a, b, c, d, e, f⟩ := t
    simp only [Except.bind] at hok
    exact ff_core_inv a b c d e f vr hok

theorem work_friendly_safe (r : Record) (hr : recordSafe r = true) :
    ∃ vr, work_friendly r = Except.ok vr := by
  obtain ⟨o1, h1⟩ := norm_0_5_safe _ (rGet_scalarSafe r hr "wifi_score" (by decide))
  obtain ⟨o2, h2⟩ := norm_0_5_safe _ (rGet_scalarSafe r hr "outlets_score" (by decide))
  obtain ⟨o3, h3⟩ := norm_noise_inverse_safe _ (rGet_scalarSafe r hr "noise_score" (by decide))
  obtain ⟨o4, h4⟩ := norm_seating_safe _ (rGet_scalarSafe r hr "seating_count" (by decide))
  obtain ⟨o5, h5⟩ := norm_hours_late_safe _ (rGet_hoursSafe r hr)
  obtain ⟨o6, h6⟩ := norm_0_5_safe _ (rGet_scalarSafe r hr "cleanliness_score" (by decide))
  obtain ⟨o7, h7⟩ := norm_0_5_safe _ (rGet_scalarSafe r hr "parking_score" (by decide))
  unfold work_friendly work_friendly_norms
  rw [h1, h2, h3, h4, h5, h6, h7]
  simp only [Except.bind]
  exact wf_core_ok _ _ _ _ _ _ _ _

theorem aesthetic_safe (r : Record) (hr : recordSafe r = true) :
    ∃ vr, aesthetic r = Except.ok vr := by
  obtain ⟨o1, h1⟩ := norm_0_5_safe _ (rGet_scalarSafe r hr "aesthetic_score" (by decide))
  obtain ⟨o2, h2⟩ := norm_0_5_safe _
    (rGetD_scalarSafe r hr "natural_light_score" (by decide) _
      (rGet_scalarSafe r hr "aesthetic_score" (by decide)))
  obtain ⟨o3, h3⟩ := norm_0_5_safe _ (rGet_scalarSafe r hr "latte_art_score" (by decide))
  obtain ⟨o4, h4⟩ := norm_0_5_safe _ (rGet_scalarSafe r hr "cleanliness_score" (by decide))
  obtain ⟨o5, h5⟩ := norm_0_5_safe _
    (rGetD_scalarSafe r hr "unique_decor_score" (by decide) _
      (rGet_scalarSafe r hr "aesthetic_score" (by decide)))
  obtain ⟨o6, h6⟩ := norm_0_5_safe _ (rGet_scalarSafe r hr "dessert_score" (by decide))
  unfold aesthetic aesthetic_norms
  rw [h1, h2, h3, h4, h5, h6]
  simp only [Except.bind]
  exact aesthetic_core_ok _ _ _ _ _ _

theorem grab_and_go_safe (r : Record) (hr : recordSafe r = true) :
    ∃ vr, grab_and_go r = Except.ok vr := by
  obtain ⟨o1, h1⟩ := norm_0_5_safe _ (rGet_scalarSafe r hr "parking_score" (by decide))
  obtain ⟨o2, h2⟩ := norm_hours_early_safe _ (rGet_hoursSafe r hr)
  obtain ⟨o3, h3⟩ := clampVal_nz_safe _ (rGet_scalarSafe r hr "peak_busy_penalty" (by decide))
  unfold grab_and_go grab_and_go_norms
  rw [h1, h2, h3]
  simp only [Except.bind]
  exact grab_and_go_core_ok _ _ _ _ _

theorem date_night_safe (r : Record) (walk : Option ℚ) (hr : recordSafe r = true) :
    ∃ vr, date_night r walk = Except.ok vr := by
  obtain ⟨o1, h1⟩ := norm_0_5_safe _
    (rGetD_scalarSafe r hr "lighting_score" (by decide) _
      (rGet_scalarSafe r hr "aesthetic_score" (by decide)))
  obtain ⟨o2, h2⟩ := norm_0_5_safe _
    (rGetD_scalarSafe r hr "seating_comfort_score" (by decide) _
      (rGet_scalarSafe r hr "aesthetic_score" (by decide)))
  obtain ⟨o3, h3⟩ := norm_mid_noise_bonus_safe _ (rGet_scalarSafe r hr "noise_score" (by decide))
  obtain ⟨amb2, hamb⟩ := combine_safe
    [(optV o1, 0.35), (optV o2, 0.35), (optV o3, 0.30)]
    (by
      intro p hp
      simp only [List.mem_cons, List.not_mem_nil, or_false] at hp
      rcases hp with rfl|rfl|rfl <;> exact optV_safe _)
  obtain ⟨o4, h4⟩ := norm_0_5_safe _ (rGet_scalarSafe r hr "dessert_score" (by decide))
  obtain ⟨o5, h5⟩ := norm_hours_late_safe _ (rGet_hoursSafe r hr)
  obtain ⟨o6, h6⟩ := norm_0_5_safe _ (rGet_scalarSafe r hr "aesthetic_score" (by decide))
  obtain ⟨o7, h7⟩ := norm_0_5_safe _ (rGet_scalarSafe r hr "cleanliness_score" (by decide))
  have hwv : scalarSafe (match walk with
      | some q => Val.vnum q
      | none => _nz (rGet r "nearby_walkables_norm") Val.vnone) = true := by
    cases walk with
    | some q => rfl
    | none =>
      exact _nz_safe _ _ (rGet_scalarSafe r hr "nearby_walkables_norm" (by decide)) rfl
  unfold date_night date_night_norms
  rw [h1, h2, h3]
  simp only [Except.bind]
  rw [hamb]
  simp only [Except.bind]
  rw [h4, h5, h6, h7]
  simp only [Except.bind]
  exact dn_core_ok _ _ _ _ _ _ hwv

theorem dietary_friendly_safe (r : Record) (hr : recordSafe r = true) :
    ∃ vr, dietary_friendly r = Except.ok vr := by
  obtain ⟨o1, h1⟩ := norm_df_milks_safe _ (rGet_scalarSafe r hr "df_milks" (by decide))
  obtain ⟨o2, h2⟩ := norm_0_5_safe _
    (rGetD_scalarSafe r hr "ingredient_transparency_score" (by decide) (Val.vnum 3) rfl)
  obtain ⟨o3, h3⟩ := norm_0_5_safe _ (rGet_scalarSafe r hr "cleanliness_score" (by decide))
  unfold dietary_friendly dietary_friendly_norms
  rw [h1, h2, h3]
  simp only [Except.bind]
  exact dietary_friendly_core_ok _ _ _ _ _

theorem study_spot_safe (r : Record) (hr : recordSafe r = true) :
    ∃ vr, study_spot r = Except.ok vr := by
  obtain ⟨o1, h1⟩ := norm_0_5_safe _ (rGet_scalarSafe r hr "outlets_score" (by decide))
  obtain ⟨o2, h2⟩ := norm_seating_safe _ (rGet_scalarSafe r hr "seating_count" (by decide))
  obtain ⟨o3, h3⟩ := norm_0_5_safe _ (rGet_scalarSafe r hr "wifi_score" (by decide))
  obtain ⟨o4, h4⟩ := norm_price_index_safe _ (rGet_scalarSafe r hr "price_index" (by decide))
  obtain ⟨o5, h5⟩ := norm_hours_late_safe _ (rGet_hoursSafe r hr)
  obtain ⟨o6, h6⟩ := norm_noise_inverse_safe _ (rGet_scalarSafe r hr "noise_score" (by decide))
  unfold study_spot study_spot_norms
  rw [h1, h2, h3, h4, h5, h6]
  simp only [Except.bind]
  exact study_spot_core_ok _ _ _ _ _ _

theorem family_friendly_safe (r : Record) (parks : Option ℚ) (hr : recordSafe r = true) :
    ∃ vr, family_friendly r parks = Except.ok vr := by
  obtain ⟨o1, h1⟩ := norm_0_5_safe _
    (rGetD_scalarSafe r hr "space_score" (by decide) _
      (rGet_scalarSafe r hr "seating_comfort_score" (by decide)))
  obtain ⟨o2, h2⟩ := norm_0_5_safe _ (rGet_scalarSafe r hr "parking_score" (by decide))
  obtain ⟨o3, h3⟩ := norm_mid_noise_bonus_safe _ (rGet_scalarSafe r hr "noise_score" (by decide))
  obtain ⟨o4, h4⟩ := norm_0_5_safe _
    (rGetD_scalarSafe r hr "kids_snacks_score" (by decide) _
      (rGet_scalarSafe r hr "dessert_score" (by decide)))
  have hpv : scalarSafe (match parks with
      | some q => Val.vnum q
      | none => _nz (rGet r "nearby_parks_norm") Val.vnone) = true := by
    cases parks with
    | some q => rfl
    | none =>
      exact _nz_safe _ _ (rGet_scalarSafe r hr "nearby_parks_norm" (by decide)) rfl
  unfold family_friendly family_friendly_norms
  rw [h1, h2, h3, h4]
  simp only [Except.bind]
  exact ff_core_ok _ _ _ _ _ _ hpv

theorem nn_safe (v : Val) (hs : scalarSafe v = true) :
    ∃ q, nn v = Except.ok q := by
  cases v <;> simp_all [nn, _nz, pyFloat, scalarSafe, Except.bind]

theorem proximity_safe (v : Val) (hs : scalarSafe v = true) :
    ∃ w, proximityNorm v = Except.ok w := by
  by_cases hn : v.isNone = true
  · exact ⟨none, by simp [proximityNorm, hn]⟩
  · obtain ⟨q, hq⟩ := nn_safe v hs
    exact ⟨some q, by simp [proximityNorm, hn, hq, Except.bind]⟩

theorem compute_all_vibes_safe (r : Record) (wc pc : Val)
    (hr : recordSafe r = true) (hwc : scalarSafe wc = true)
    (hpc : scalarSafe pc = true) :
    ∃ m, compute_all_vibes r wc pc = Except.ok m := by
  obtain ⟨w, hw⟩ := proximity_safe wc hwc
  obtain ⟨pk, hpk⟩ := proximity_safe pc hpc
  obtain ⟨v1, h1⟩ := work_friendly_safe r hr
  obtain ⟨v2, h2⟩ := aesthetic_safe r hr
  obtain ⟨v3, h3⟩ := grab_and_go_safe r hr
  obtain ⟨v4, h4⟩ := date_night_safe r w hr
  obtain ⟨v5, h5⟩ := dietary_friendly_safe r hr
  obtain ⟨v6, h6⟩ := study_spot_safe r hr
  obtain ⟨v7, h7⟩ := family_friendly_safe r pk hr
  unfold compute_all_vibes
  rw [hw]
  simp only [Except.bind]
  rw [hpk]
  simp only [Except.bind]
  rw [h1]
  simp only [Except.bind]
  rw [h2]
  simp only [Except.bind]
  rw [h3]
  simp only [Except.bind]
  rw [h4]
  simp only [Except.bind]
  rw [h5]
  simp only [Except.bind]
  rw [h6]
  simp only [Except.bind]
  rw [h7]
  simp only [Except.bind]
  exact ⟨_, rfl⟩

theorem compute_all_vibes_inv (r : Record) (wc pc : Val)
    (m : List (String × VibeResult))
    (h : compute_all_vibes r wc pc = Except.ok m) :
    ∀ p ∈ m, 0.88 ≤ p.2.coverage ∧ p.2.confidence = "High" := by
  unfold compute_all_vibes at h
  cases hw : proximityNorm wc with
  | error e => rw [hw] at h; simp [Except.bind] at h
  | ok w =>
    rw [hw] at h
    simp only [Except.bind] at h
    cases hpk : proximityNorm pc with
    | error e => rw [hpk] at h; simp [Except.bind] at h
    | ok pk =>
      rw [hpk] at h
      simp only [Except.bind] at h
      cases h1 : work_friendly r with
      | error e => rw [h1] at h; simp [Except.bind] at h
      | ok v1 =>
        rw [h1] at h
        simp only [Except.bind] at h
        cases h2 : aesthetic r with
        | error e => rw [h2] at h; simp [Except.bind] at h
        | ok v2 =>
          rw [h2] at h
          simp only [Except.bind] at h
          cases h3 : grab_and_go r with
          | error e => rw [h3] at h; simp [Except.bind] at h
          | ok v3 =>
            rw [h3] at h
            simp only [Except.bind] at h
            cases h4 : date_night r w with
            | error e => rw [h4] at h; simp [Except.bind] at h
            | ok v4 =>
              rw [h4] at h
              simp only [Except.bind] at h
              cases h5 : dietary_friendly r with
              | error e => rw [h5] at h; simp [Except.bind] at h
              | ok v5 =>
                rw [h5] at h
                simp only [Except.bind] at h
                cases h6 : study_spot r with
                | error e => rw [h6] at h; simp [Except.bind] at h
                | ok v6 =>
                  rw [h6] at h
                  simp only [Except.bind] at h
                  cases h7 : family_friendly r pk with
                  | error e => rw [h7] at h; simp [Except.bind] at h
                  | ok v7 =>
                    rw [h7] at h
                    simp only [Except.bind, Except.ok.injEq] at h
                    subst h
                    intro p hp
                    simp only [List.mem_cons, List.not_mem_nil, or_false] at hp
                    rcases hp with rfl|rfl|rfl|rfl|rfl|rfl|rfl
                    · exact ⟨by rw [(work_friendly_inv r v1 h1).1]; norm_num,
                        (work_friendly_inv r v1 h1).2⟩
                    · exact ⟨by rw [(aesthetic_inv r v2 h2).1]; norm_num,
                        (aesthetic_inv r v2 h2).2⟩
                    · exact ⟨by rw [(grab_and_go_inv r v3 h3).1]; norm_num,
                        (grab_and_go_inv r v3 h3).2⟩
                    · exact ⟨(date_night_inv r w v4 h4).2, (date_night_inv r w v4 h4).1⟩
                    · exact ⟨by rw [(dietary_friendly_inv r v5 h5).1]; norm_num,
                        (dietary_friendly_inv r v5 h5).2⟩
                    · exact ⟨by rw [(study_spot_inv r v6 h6).1]; norm_num,
                        (study_spot_inv r v6 h6).2⟩
                    · exact ⟨(family_friendly_inv r pk v7 h7).2,
                        (family_friendly_inv r pk v7 h7).1⟩

theorem compute_all_vibes_ok_shape (r : Record) (wc pc : Val)
    (m : List (String × VibeResult))
    (h : compute_all_vibes r wc pc = Except.ok m) :
    ∃ w pk v1 v2 v3 v4 v5 v6 v7,
      proximityNorm wc = Except.ok w ∧ proximityNorm pc = Except.ok pk ∧
      work_friendly r = Except.ok v1 ∧ aesthetic r = Except.ok v2 ∧
      grab_and_go r = Except.ok v3 ∧ date_night r w = Except.ok v4 ∧
      dietary_friendly r = Except.ok v5 ∧ study_spot r = Except.ok v6 ∧
      family_friendly r pk = Except.ok v7 ∧
      m = [("Work-Friendly", v1), ("Aesthetic", v2), ("Grab-and-Go", v3),
           ("Date-Night", v4), ("Dietary-Friendly", v5), ("Study-Spot", v6),
           ("Family-Friendly", v7)] := by
  unfold compute_all_vibes at h
  cases hw : proximityNorm wc with
  | error e => rw [hw] at h; simp [Except.bind] at h
  | ok w =>
  rw [hw] at h
  simp only [Except.bind] at h
  cases hpk : proximityNorm pc with
  | error e => rw [hpk] at h; simp [Except.bind] at h
  | ok pk =>
  rw [hpk] at h
  simp only [Except.bind] at h
  cases h1 : work_friendly r with
  | error e => rw [h1] at h; simp [Except.bind] at h
  | ok v1 =>
  rw [h1] at h
  simp only [Except.bind] at h
  cases h2 : aesthetic r with
  | error e => rw [h2] at h; simp [Except.bind] at h
  | ok v2 =>
  rw [h2] at h
  simp only [Except.bind] at h
  cases h3 : grab_and_go r with
  | error e => rw [h3] at h; simp [Except.bind] at h
  | ok v3 =>
  rw [h3] at h
  simp only [Except.bind] at h
  cases h4 : date_night r w with
  | error e => rw [h4] at h; simp [Except.bind] at h
  | ok v4 =>
  rw [h4] at h
  simp only [Except.bind] at h
  cases h5 : dietary_friendly r with
  | error e => rw [h5] at h; simp [Except.bind] at h
  | ok v5 =>
  rw [h5] at h
  simp only [Except.bind] at h
  cases h6 : study_spot r with
  | error e => rw [h6] at h; simp [Except.bind] at h
  | ok v6 =>
  rw [h6] at h
  simp only [Except.bind] at h
  cases h7 : family_friendly r pk with
  | error e => rw [h7] at h; simp [Except.bind] at h
  | ok v7 =>
  rw [h7] at h
  simp only [Except.bind, Except.ok.injEq] at h
  exact ⟨w, pk, v1, v2, v3, v4, v5, v6, v7, rfl, rfl, rfl, rfl, rfl, h4, rfl, rfl, h7, h.symm⟩

-- congruence under agreement away from wifi_score
theorem aesthetic_congr (r1 r2 : Record)
    (h : ∀ k, k ≠ "wifi_score" → rGetOpt r1 k = rGetOpt r2 k) :
    aesthetic r1 = aesthetic r2 := by
  unfold aesthetic aesthetic_norms rGet rGetD
  rw [h "aesthetic_score" (by decide), h "natural_light_score" (by decide),
      h "latte_art_score" (by decide), h "cleanliness_score" (by decide),
      h "unique_decor_score" (by decide), h "dessert_score" (by decide)]

theorem grab_and_go_congr (r1 r2 : Record)
    (h : ∀ k, k ≠ "wifi_score" → rGetOpt r1 k = rGetOpt r2 k) :
    grab_and_go r1 = grab_and_go r2 := by
  unfold grab_and_go grab_and_go_norms rGet rGetD
  rw [h "parking_score" (by decide), h "hours_json" (by decide),
      h "peak_busy_penalty" (by decide), h "mobile_order" (by decide),
      h "has_drive_through" (by decide)]

theorem date_night_congr (r1 r2 : Record) (walk : Option ℚ)
    (h : ∀ k, k ≠ "wifi_score" → rGetOpt r1 k = rGetOpt r2 k) :
    date_night r1 walk = date_night r2 walk := by
  unfold date_night date_night_norms rGet rGetD
  rw [h "lighting_score" (by decide), h "aesthetic_score" (by decide),
      h "seating_comfort_score" (by decide), h "noise_score" (by decide),
      h "dessert_score" (by decide), h "hours_json" (by decide),
      h "nearby_walkables_norm" (by decide), h "cleanliness_score" (by decide)]

theorem dietary_friendly_congr (r1 r2 : Record)
    (h : ∀ k, k ≠ "wifi_score" → rGetOpt r1 k = rGetOpt r2 k) :
    dietary_friendly r1 = dietary_friendly r2 := by
  unfold dietary_friendly dietary_friendly_norms rGet rGetD
  rw [h "df_milks" (by decide), h "ingredient_transparency_score" (by decide),
      h "cleanliness_score" (by decide), h "gf_food" (by decide),
      h "nut_free" (by decide)]

theorem family_friendly_congr (r1 r2 : Record) (parks : Option ℚ)
    (h : ∀ k, k ≠ "wifi_score" → rGetOpt r1 k = rGetOpt r2 k) :
    family_friendly r1 parks = family_friendly r2 parks := by
  unfold family_friendly family_friendly_norms rGet rGetD
  rw [h "space_score" (by decide), h "seating_comfort_score" (by decide),
      h "parking_score" (by decide), h "noise_score" (by decide),
      h "kids_snacks_score" (by decide), h "dessert_score" (by decide),
      h "restroom_access" (by decide), h "nearby_parks_norm" (by decide)]

/-- The head of the stable descending sort is the first-listed element
attaining the maximal score. -/
theorem sortDesc_first_max (l : List (String × VibeResult)) (hne : l ≠ []) :
    ∃ x rest l1 l2, sortDesc l = x :: rest ∧ l = l1 ++ x :: l2 ∧
      (∀ p ∈ l1, p.2.score < x.2.score) ∧ (∀ p ∈ l, p.2.score ≤ x.2.score) := by
  induction l with
  | nil => exact absurd rfl hne
  | cons a as ih =>
    cases as with
    | nil =>
      refine ⟨a, [], [], [], rfl, rfl, ?_, ?_⟩
      · intro p hp
        simp at hp
      · intro p hp
        simp at hp
        subst hp
        exact le_refl _
    | cons b bs =>
      obtain ⟨x, rest, l1, l2, hsort, hdec, hpre, hmax⟩ := ih (by simp)
      by_cases hlt : a.2.score < x.2.score
      · refine ⟨x, insertDesc a rest, a :: l1, l2, ?_, ?_, ?_, ?_⟩
        · show insertDesc a (sortDesc (b :: bs)) = x :: insertDesc a rest
          rw [hsort]
          simp [insertDesc, hlt]
        · simp [hdec]
        · intro p hp
          rcases List.mem_cons.mp hp with rfl | hp2
          · exact hlt
          · exact hpre p hp2
        · intro p hp
          rcases List.mem_cons.mp hp with rfl | hp2
          · exact le_of_lt hlt
          · exact hmax p hp2
      · refine ⟨a, x :: rest, [], b :: bs, ?_, rfl, ?_, ?_⟩
        · show insertDesc a (sortDesc (b :: bs)) = a :: x :: rest
          rw [hsort]
          simp [insertDesc, hlt]
        · intro p hp
          simp at hp
        · intro p hp
          rcases List.mem_cons.mp hp with rfl | hp2
          · exact le_refl _
          · exact le_trans (hmax p hp2) (not_lt.mp hlt)

/-- On a well-formed non-wrapping day the early loop iteration adds the
span and the early-window overlap. -/
theorem earlyStep_wf (t e o c : ℚ) (k : String)
    (h0 : 0 ≤ o) (hoc : o < c) (h24 : c ≤ 24) :
    earlyStep (PF.num t, PF.num e) (k, Val.vlist [Val.vnum o, Val.vnum c]) =
      Except.ok (PF.num (t + (c - o)), PF.num (e + dayEarlyOverlap o c)) := by
  have hle : PF.le (PF.num o) (PF.num c) = true := by
    simp [PF.le, le_of_lt hoc]
  have hspan : PF.lt (PF.num (c - o)) (PF.num 0) = false := by
    simp [PF.lt]
    linarith
  have hlt : PF.lt (PF.num o) (PF.num c) = true := by simp [PF.lt, hoc]
  by_cases ho : o < 7.5
  · have ho2 : PF.lt (PF.num o) (PF.num 7.5) = true := by simp [PF.lt, ho]
    by_cases hmin : c - o < 7.5 - o
    · have hm : PF.lt (PF.num (c - o)) (PF.num (7.5 - o)) = true := by
        simp [PF.lt, hmin]
      simp [earlyStep, toPF, PF.sub, hle, if_true, pyMaxPF, hspan, if_false,
        PF.add, ho2, hlt, pyMinPF, hm]
      have : dayEarlyOverlap o c = c - o := by
        unfold dayEarlyOverlap
        rw [min_eq_left (by linarith), max_eq_right (by linarith)]
      rw [this]
    · have hm : PF.lt (PF.num (c - o)) (PF.num (7.5 - o)) = false := by
        simp [PF.lt]
        linarith
      simp [earlyStep, toPF, PF.sub, hle, if_true, pyMaxPF, hspan, if_false,
        PF.add, ho2, hlt, pyMinPF, hm]
      have : dayEarlyOverlap o c = 7.5 - o := by
        unfold dayEarlyOverlap
        rw [min_eq_right (by linarith), max_eq_right (by linarith)]
      rw [this]
  · have ho2 : PF.lt (PF.num o) (PF.num 7.5) = false := by
      simp [PF.lt]
      linarith
    simp [earlyStep, toPF, PF.sub, hle, if_true, pyMaxPF, hspan, if_false,
      PF.add, ho2]
    have : dayEarlyOverlap o c = 0 := by
      unfold dayEarlyOverlap
      rw [max_eq_left]
      have := min_le_right c (7.5 : ℚ)
      linarith
    simp [this]

/-- On a well-formed non-wrapping day the late loop iteration adds the
span and the late-window overlap. -/
theorem lateStep_wf (t l o c : ℚ) (k : String)
    (h0 : 0 ≤ o) (hoc : o < c) (h24 : c ≤ 24) :
    lateStep (PF.num t, PF.num l) (k, Val.vlist [Val.vnum o, Val.vnum c]) =
      Except.ok (PF.num (t + (c - o)), PF.num (l + dayLateOverlap o c)) := by
  have hle : PF.le (PF.num o) (PF.num c) = true := by
    simp [PF.le, le_of_lt hoc]
  have hspan : PF.lt (PF.num (c - o)) (PF.num 0) = false := by
    simp [PF.lt]
    linarith
  by_cases hc19 : 19 < c
  · have hc : PF.lt (PF.num 19) (PF.num c) = true := by simp [PF.lt, hc19]
    by_cases ho19 : o < 19
    · have h19 : PF.lt (PF.num o) (PF.num 19) = true := by simp [PF.lt, ho19]
      have hnn : PF.lt (PF.num (c - 19)) (PF.num 0) = false := by
        simp [PF.lt]
        linarith
      simp [lateStep, toPF, PF.sub, hle, if_true, pyMaxPF, hspan, if_false,
        PF.add, hc, h19, hnn]
      have : dayLateOverlap o c = c - 19 := by
        unfold dayLateOverlap
        rw [max_eq_right (le_of_lt ho19), max_eq_right (by linarith)]
      rw [this]
    · have h19 : PF.lt (PF.num o) (PF.num 19) = false := by
        simp [PF.lt]
        linarith
      have hnn : PF.lt (PF.num (c - o)) (PF.num 0) = false := hspan
      simp [lateStep, toPF, PF.sub, hle, if_true, pyMaxPF, hspan, if_false,
        PF.add, hc, h19, hnn]
      have : dayLateOverlap o c = c - o := by
        unfold dayLateOverlap
        rw [show (max o 19 : ℚ) = o from max_eq_left (by linarith)]
        rw [max_eq_right (by linarith)]
      rw [this]
  · have hc : PF.lt (PF.num 19) (PF.num c) = false := by
      simp [PF.lt]
      linarith
    simp [lateStep, toPF, PF.sub, hle, if_true, pyMaxPF, hspan, if_false,
      PF.add, hc]
    have : dayLateOverlap o c = 0 := by
      unfold dayLateOverlap
      rcases le_or_lt o 19 with h | h
      · rw [show (max o 19 : ℚ) = 19 from max_eq_right h]
        rw [max_eq_left (by linarith)]
      · rw [show (max o 19 : ℚ) = o from max_eq_left (le_of_lt h)]
        rw [max_eq_left (by linarith)]
    simp [this]

theorem hoursWF_shape (p : String × Val) (hp : hoursWF p = true) :
    ∃ k o c, p = (k, Val.vlist [Val.vnum o, Val.vnum c]) ∧
      0 ≤ o ∧ o < c ∧ c ≤ 24 := by
  obtain ⟨k, v⟩ := p
  rcases v with _ | q | _ | b | sv | items | ents <;> try simp [hoursWF] at hp
  rcases items with _ | ⟨o, _ | ⟨c, _ | ⟨x, rest⟩⟩⟩ <;> try simp [hoursWF] at hp
  rcases o with _ | oq | _ | ob | os | oi | oe <;> try simp [hoursWF] at hp
  rcases c with _ | cq | _ | cb | cs | ci | ce <;> try simp [hoursWF] at hp
  exact ⟨k, oq, cq, rfl, hp.1.1, hp.1.2, hp.2⟩

theorem earlyFold_wf (entries : List (String × Val)) (t e : ℚ)
    (h : ∀ p ∈ entries, hoursWF p = true) :
    earlyFold (PF.num t, PF.num e) entries =
      Except.ok (PF.num (t + (entries.map entrySpan).sum),
                 PF.num (e + (entries.map entryEarly).sum)) := by
  induction entries generalizing t e with
  | nil => simp [earlyFold]
  | cons p rest ih =>
    obtain ⟨k, o, c, rfl, h0, hoc, h24⟩ := hoursWF_shape p (h p (List.mem_cons_self p rest))
    have hstep := earlyStep_wf t e o c k h0 hoc h24
    have hrest := ih (t + (c - o)) (e + dayEarlyOverlap o c)
      (fun q hq => h q (List.mem_cons_of_mem _ hq))
    have hred : earlyFold (PF.num t, PF.num e)
        ((k, Val.vlist [Val.vnum o, Val.vnum c]) :: rest) =
        earlyFold (PF.num (t + (c - o)), PF.num (e + dayEarlyOverlap o c)) rest := by
      simp [earlyFold, hstep]
    rw [hred, hrest]
    simp only [List.map_cons, List.sum_cons, Except.ok.injEq, Prod.mk.injEq,
      PF.num.injEq, entrySpan, entryEarly]
    constructor <;> ring

theorem lateFold_wf (entries : List (String × Val)) (t l : ℚ)
    (h : ∀ p ∈ entries, hoursWF p = true) :
    lateFold (PF.num t, PF.num l) entries =
      Except.ok (PF.num (t + (entries.map entrySpan).sum),
                 PF.num (l + (entries.map entryLate).sum)) := by
  induction entries generalizing t l with
  | nil => simp [lateFold]
  | cons p rest ih =>
    obtain ⟨k, o, c, rfl, h0, hoc, h24⟩ := hoursWF_shape p (h p (List.mem_cons_self p rest))
    have hstep := lateStep_wf t l o c k h0 hoc h24
    have hrest := ih (t + (c - o)) (l + dayLateOverlap o c)
      (fun q hq => h q (List.mem_cons_of_mem _ hq))
    have hred : lateFold (PF.num t, PF.num l)
        ((k, Val.vlist [Val.vnum o, Val.vnum c]) :: rest) =
        lateFold (PF.num (t + (c - o)), PF.num (l + dayLateOverlap o c)) rest := by
      simp [lateFold, hstep]
    rw [hred, hrest]
    simp only [List.map_cons, List.sum_cons, Except.ok.injEq, Prod.mk.injEq,
      PF.num.injEq, entrySpan, entryLate]
    constructor <;> ring

theorem norm_hours_early_wf (entries : List (String × Val))
    (h : ∀ p ∈ entries, hoursWF p = true)
    (hT : 0 < (entries.map entrySpan).sum) :
    norm_hours_early (Val.vdict entries) =
      Except.ok (some (clamp ((entries.map entryEarly).sum /
        (entries.map entrySpan).sum))) := by
  have hne : entries.isEmpty = false := by
    cases entries with
    | nil => simp at hT
    | cons p rest => rfl
  have hfold := earlyFold_wf entries 0 0 h
  simp only [zero_add] at hfold
  have hle : PF.le (PF.num ((entries.map entrySpan).sum)) (PF.num 0) = false := by
    simp [PF.le]
    linarith
  simp only [norm_hours_early, hne, Bool.false_eq_true, if_false, hfold, hle,
    PF.div, pfClamp]
  rw [if_neg (ne_of_gt hT)]

theorem norm_hours_late_wf (entries : List (String × Val))
    (h : ∀ p ∈ entries, hoursWF p = true)
    (hT : 0 < (entries.map entrySpan).sum) :
    norm_hours_late (Val.vdict entries) =
      Except.ok (some (clamp ((entries.map entryLate).sum /
        (entries.map entrySpan).sum))) := by
  have hne : entries.isEmpty = false := by
    cases entries with
    | nil => simp at hT
    | cons p rest => rfl
  have hfold := lateFold_wf entries 0 0 h
  simp only [zero_add] at hfold
  have hle : PF.le (PF.num ((entries.map entrySpan).sum)) (PF.num 0) = false := by
    simp [PF.le]
    linarith
  simp only [norm_hours_late, hne, Bool.false_eq_true, if_false, hfold, hle,
    PF.div, pfClamp]
  rw [if_neg (ne_of_gt hT)]

-- reduction-only evaluation facts for absent attributes
theorem rGet_nil (k : String) : rGet [] k = Val.vnone := rfl
theorem rGetD_nil (k : String) (d : Val) : rGetD [] k d = d := rfl
theorem norm_0_5_vnone : norm_0_5 Val.vnone = Except.ok none := rfl
theorem bool_norm_vnone : bool_norm Val.vnone = none := rfl
theorem norm_noise_inverse_vnone : norm_noise_inverse Val.vnone = Except.ok none := rfl
theorem norm_mid_noise_bonus_vnone : norm_mid_noise_bonus Val.vnone = Except.ok none := rfl
theorem norm_seating_vnone : norm_seating Val.vnone = Except.ok none := rfl
theorem norm_price_index_vnone : norm_price_index Val.vnone = Except.ok none := rfl
theorem norm_df_milks_vnone : norm_df_milks Val.vnone = Except.ok none := rfl
theorem norm_hours_late_vnone : norm_hours_late Val.vnone = Except.ok none := rfl
theorem norm_hours_early_vnone : norm_hours_early Val.vnone = Except.ok none := rfl

-- the amb composite of date_night on an all-absent record
theorem amb_combine_nil : combine
    [(optV none, 0.35), (optV none, 0.35), (optV none, 0.30)] = Except.ok (0, 0) := by
  norm_num [combine, presParts, totalW, optV, List.filter, Val.isNone, List.isEmpty]

-- peak default of grab_and_go on an absent attribute
theorem clampVal_default : clampVal (_nz Val.vnone (Val.vnum 0.2)) = Except.ok 0.2 := by
  norm_num [clampVal, _nz, clamp, min_def, max_def]

theorem work_friendly_norms_nil : work_friendly_norms [] = Except.ok (0.6, 0.5, 0.5, 0.4, 0.5, 0.4, 0.6, 0.5) := by
  unfold work_friendly_norms
  norm_num [rGet_nil, rGetD_nil, norm_0_5_vnone, bool_norm_vnone, norm_noise_inverse_vnone, norm_mid_noise_bonus_vnone, norm_seating_vnone, norm_price_index_vnone, norm_df_milks_vnone, norm_hours_late_vnone, norm_hours_early_vnone, Except.bind, pyOr, Option.getD, clampVal, norm_0_5, pyFloat, _nz, clamp, min_def, max_def]

theorem work_friendly_combine_nil : combine
    [(Val.vnum 0.6, 0.22), (Val.vnum 0.5, 0.18), (Val.vnum 0.5, 0.15), (Val.vnum 0.4, 0.12), (Val.vnum 0.5, 0.10), (Val.vnum 0.4, 0.10), (Val.vnum 0.6, 0.08), (Val.vnum 0.5, 0.05)] = Except.ok (0.508, 1) := by
  norm_num [combine, presParts, totalW, List.filter, Val.isNone, sumMulAux, pyMulW, toPF, PF.add, PF.div, pfClamp, clamp, min_def, max_def, List.isEmpty]

theorem work_friendly_core_nil : work_friendly_core 0.6 0.5 0.5 0.4 0.5 0.4 0.6 0.5 = Except.ok ⟨50.8, 1, "High", []⟩ := by
  unfold work_friendly_core
  rw [work_friendly_combine_nil]
  norm_num [_conf, round1, roundHalfEven, Int.fract, clamp, min_def, max_def]

theorem work_friendly_nil : work_friendly [] = Except.ok ⟨50.8, 1, "High", []⟩ := by
  unfold work_friendly
  rw [work_friendly_norms_nil]
  simp only [Except.bind]
  exact work_friendly_core_nil

theorem aesthetic_norms_nil : aesthetic_norms [] = Except.ok (0.5, 0.5, 0.4, 0.6, 0.5, 0.5) := by
  unfold aesthetic_norms
  norm_num [rGet_nil, rGetD_nil, norm_0_5_vnone, bool_norm_vnone, norm_noise_inverse_vnone, norm_mid_noise_bonus_vnone, norm_seating_vnone, norm_price_index_vnone, norm_df_milks_vnone, norm_hours_late_vnone, norm_hours_early_vnone, Except.bind, pyOr, Option.getD, clampVal, norm_0_5, pyFloat, _nz, clamp, min_def, max_def]

theorem aesthetic_combine_nil : combine
    [(Val.vnum 0.5, 0.40), (Val.vnum 0.5, 0.20), (Val.vnum 0.4, 0.15), (Val.vnum 0.6, 0.10), (Val.vnum 0.5, 0.10), (Val.vnum 0.5, 0.05)] = Except.ok (0.495, 1) := by
  norm_num [combine, presParts, totalW, List.filter, Val.isNone, sumMulAux, pyMulW, toPF, PF.add, PF.div, pfClamp, clamp, min_def, max_def, List.isEmpty]

theorem aesthetic_core_nil : aesthetic_core 0.5 0.5 0.4 0.6 0.5 0.5 = Except.ok ⟨49.5, 1, "High", []⟩ := by
  unfold aesthetic_core
  rw [aesthetic_combine_nil]
  norm_num [_conf, round1, roundHalfEven, Int.fract, clamp, min_def, max_def]

theorem aesthetic_nil : aesthetic [] = Except.ok ⟨49.5, 1, "High", []⟩ := by
  unfold aesthetic
  rw [aesthetic_norms_nil]
  simp only [Except.bind]
  exact aesthetic_core_nil

theorem grab_and_go_norms_nil : grab_and_go_norms [] = Except.ok (0.5, 0.4, 0, 0, 0.2) := by
  unfold grab_and_go_norms
  norm_num [rGet_nil, rGetD_nil, norm_0_5_vnone, bool_norm_vnone, norm_noise_inverse_vnone, norm_mid_noise_bonus_vnone, norm_seating_vnone, norm_price_index_vnone, norm_df_milks_vnone, norm_hours_late_vnone, norm_hours_early_vnone, Except.bind, pyOr, Option.getD, clampVal, norm_0_5, pyFloat, _nz, clamp, min_def, max_def]

theorem grab_and_go_combine_nil : combine
    [(Val.vnum (clamp (0.4 + 0.3 * 0 + 0.3 * 0 - 0.2 * 0.2)), 0.35), (Val.vnum 0.5, 0.25), (Val.vnum 0.4, 0.15), (Val.vnum 0, 0.15), (Val.vnum 0, 0.10)] = Except.ok (0.311, 1) := by
  norm_num [combine, presParts, totalW, List.filter, Val.isNone, sumMulAux, pyMulW, toPF, PF.add, PF.div, pfClamp, clamp, min_def, max_def, List.isEmpty]

theorem grab_and_go_core_nil : grab_and_go_core 0.5 0.4 0 0 0.2 = Except.ok ⟨31.1, 1, "High", []⟩ := by
  unfold grab_and_go_core
  rw [grab_and_go_combine_nil]
  norm_num [_conf, round1, roundHalfEven, Int.fract, clamp, min_def, max_def]

theorem grab_and_go_nil : grab_and_go [] = Except.ok ⟨31.1, 1, "High", []⟩ := by
  unfold grab_and_go
  rw [grab_and_go_norms_nil]
  simp only [Except.bind]
  exact grab_and_go_core_nil

theorem dietary_friendly_norms_nil : dietary_friendly_norms [] = Except.ok (0, 0, 0, 0.6, 0.6) := by
  unfold dietary_friendly_norms
  norm_num [rGet_nil, rGetD_nil, norm_0_5_vnone, bool_norm_vnone, norm_noise_inverse_vnone, norm_mid_noise_bonus_vnone, norm_seating_vnone, norm_price_index_vnone, norm_df_milks_vnone, norm_hours_late_vnone, norm_hours_early_vnone, Except.bind, pyOr, Option.getD, clampVal, norm_0_5, pyFloat, _nz, clamp, min_def, max_def]

theorem dietary_friendly_combine_nil : combine
    [(Val.vnum 0, 0.40), (Val.vnum 0, 0.28), (Val.vnum 0, 0.12), (Val.vnum 0.6, 0.10), (Val.vnum 0.6, 0.10)] = Except.ok (0.12, 1) := by
  norm_num [combine, presParts, totalW, List.filter, Val.isNone, sumMulAux, pyMulW, toPF, PF.add, PF.div, pfClamp, clamp, min_def, max_def, List.isEmpty]

theorem dietary_friendly_core_nil : dietary_friendly_core 0 0 0 0.6 0.6 = Except.ok ⟨12, 1, "High", []⟩ := by
  unfold dietary_friendly_core
  rw [dietary_friendly_combine_nil]
  norm_num [_conf, round1, roundHalfEven, Int.fract, clamp, min_def, max_def]

theorem dietary_friendly_nil : dietary_friendly [] = Except.ok ⟨12, 1, "High", []⟩ := by
  unfold dietary_friendly
  rw [dietary_friendly_norms_nil]
  simp only [Except.bind]
  exact dietary_friendly_core_nil

theorem study_spot_norms_nil : study_spot_norms [] = Except.ok (0.5, 0.4, 0.6, 0.5, 0.4, 0.5) := by
  unfold study_spot_norms
  norm_num [rGet_nil, rGetD_nil, norm_0_5_vnone, bool_norm_vnone, norm_noise_inverse_vnone, norm_mid_noise_bonus_vnone, norm_seating_vnone, norm_price_index_vnone, norm_df_milks_vnone, norm_hours_late_vnone, norm_hours_early_vnone, Except.bind, pyOr, Option.getD, clampVal, norm_0_5, pyFloat, _nz, clamp, min_def, max_def]

theorem study_spot_combine_nil : combine
    [(Val.vnum 0.5, 0.28), (Val.vnum 0.4, 0.22), (Val.vnum 0.6, 0.18), (Val.vnum 0.5, 0.12), (Val.vnum 0.4, 0.10), (Val.vnum 0.5, 0.10)] = Except.ok (0.486, 1) := by
  norm_num [combine, presParts, totalW, List.filter, Val.isNone, sumMulAux, pyMulW, toPF, PF.add, PF.div, pfClamp, clamp, min_def, max_def, List.isEmpty]

theorem study_spot_core_nil : study_spot_core 0.5 0.4 0.6 0.5 0.4 0.5 = Except.ok ⟨48.6, 1, "High", []⟩ := by
  unfold study_spot_core
  rw [study_spot_combine_nil]
  norm_num [_conf, round1, roundHalfEven, Int.fract, clamp, min_def, max_def]

theorem study_spot_nil : study_spot [] = Except.ok ⟨48.6, 1, "High", []⟩ := by
  unfold study_spot
  rw [study_spot_norms_nil]
  simp only [Except.bind]
  exact study_spot_core_nil

theorem date_night_norms_nil : date_night_norms [] none =
    Except.ok (0, 0.5, 0.4, 0.5, Val.vnone, 0.6) := by
  unfold date_night_norms
  norm_num [rGet_nil, rGetD_nil, norm_0_5_vnone, bool_norm_vnone, norm_noise_inverse_vnone, norm_mid_noise_bonus_vnone, norm_seating_vnone, norm_price_index_vnone, norm_df_milks_vnone, norm_hours_late_vnone, norm_hours_early_vnone, Except.bind, pyOr, Option.getD, _nz, combine, presParts, totalW, optV,
    List.filter, Val.isNone, List.isEmpty]

theorem date_night_combine_nil : combine
    [(Val.vnum 0, 0.25), (Val.vnum 0.5, 0.20), (Val.vnum 0.4, 0.18),
     (Val.vnum 0.5, 0.15), (Val.vnone, 0.12), (Val.vnum 0.6, 0.10)] =
    Except.ok (307/880, 0.88) := by
  norm_num [combine, presParts, totalW, List.filter, Val.isNone, sumMulAux, pyMulW, toPF, PF.add, PF.div, pfClamp, clamp, min_def, max_def, List.isEmpty]

theorem date_night_core_nil : date_night_core 0 0.5 0.4 0.5 Val.vnone 0.6 =
    Except.ok ⟨34.5, 0.88, "High", []⟩ := by
  unfold date_night_core
  rw [date_night_combine_nil]
  norm_num [_conf, round1, roundHalfEven, Int.fract, clamp, min_def, max_def]

theorem date_night_nil : date_night [] none = Except.ok ⟨34.5, 0.88, "High", []⟩ := by
  unfold date_night
  rw [date_night_norms_nil]
  simp only [Except.bind]
  exact date_night_core_nil

theorem family_friendly_norms_nil : family_friendly_norms [] none =
    Except.ok (0.5, 0.5, 0.5, 0.5, 0.5, Val.vnone) := by
  unfold family_friendly_norms
  norm_num [rGet_nil, rGetD_nil, norm_0_5_vnone, bool_norm_vnone, norm_noise_inverse_vnone, norm_mid_noise_bonus_vnone, norm_seating_vnone, norm_price_index_vnone, norm_df_milks_vnone, norm_hours_late_vnone, norm_hours_early_vnone, Except.bind, pyOr, Option.getD, _nz]

theorem family_friendly_combine_nil : combine
    [(Val.vnum 0.5, 0.30), (Val.vnum 0.5, 0.20), (Val.vnum 0.5, 0.18),
     (Val.vnum 0.5, 0.15), (Val.vnum 0.5, 0.10), (Val.vnone, 0.07)] =
    Except.ok (0.5, 0.93) := by
  norm_num [combine, presParts, totalW, List.filter, Val.isNone, sumMulAux, pyMulW, toPF, PF.add, PF.div, pfClamp, clamp, min_def, max_def, List.isEmpty]

theorem family_friendly_core_nil : family_friendly_core 0.5 0.5 0.5 0.5 0.5 Val.vnone =
    Except.ok ⟨49.6, 0.93, "High", []⟩ := by
  unfold family_friendly_core
  rw [family_friendly_combine_nil]
  norm_num [_conf, round1, roundHalfEven, Int.fract, clamp, min_def, max_def, parksDriver, pyTruthy, Except.bind]

theorem family_friendly_nil : family_friendly [] none =
    Except.ok ⟨49.6, 0.93, "High", []⟩ := by
  unfold family_friendly
  rw [family_friendly_norms_nil]
  simp only [Except.bind]
  exact family_friendly_core_nil

theorem proximityNorm_vnone : proximityNorm Val.vnone = Except.ok none := rfl

theorem compute_all_vibes_nil : compute_all_vibes [] Val.vnone Val.vnone =
    Except.ok [("Work-Friendly", ⟨50.8, 1, "High", []⟩),
               ("Aesthetic", ⟨49.5, 1, "High", []⟩),
               ("Grab-and-Go", ⟨31.1, 1, "High", []⟩),
               ("Date-Night", ⟨34.5, 0.88, "High", []⟩),
               ("Dietary-Friendly", ⟨12, 1, "High", []⟩),
               ("Study-Spot", ⟨48.6, 1, "High", []⟩),
               ("Family-Friendly", ⟨49.6, 0.93, "High", []⟩)] := by
  unfold compute_all_vibes
  rw [proximityNorm_vnone]
  simp only [Except.bind]
  rw [work_friendly_nil]
  simp only [Except.bind]
  rw [aesthetic_nil]
  simp only [Except.bind]
  rw [grab_and_go_nil]
  simp only [Except.bind]
  rw [date_night_nil]
  simp only [Except.bind]
  rw [dietary_friendly_nil]
  simp only [Except.bind]
  rw [study_spot_nil]
  simp only [Except.bind]
  rw [family_friendly_nil]

theorem norm_0_5_four : norm_0_5 (Val.vnum 4) = Except.ok (some 0.8) := by
  norm_num [norm_0_5, _nz, pyFloat, clamp, min_def, max_def]

theorem wf_norms_eval : work_friendly_norms [("wifi_score", Val.vnum 4)] =
    Except.ok (0.8, 0.5, 0.5, 0.4, 0.5, 0.4, 0.6, 0.5) := by
  have hg1 : rGet [("wifi_score", Val.vnum 4)] "wifi_score" = Val.vnum 4 := by
    simp [rGet, rGetD, rGetOpt]
  have hg2 : ∀ k, k ≠ "wifi_score" → rGet [("wifi_score", Val.vnum 4)] k = Val.vnone := by
    intro k hk
    simp [rGet, rGetD, rGetOpt, Ne.symm hk]
  unfold work_friendly_norms
  rw [hg1,
    hg2 "outlets_score" (by decide), hg2 "noise_score" (by decide),
    hg2 "seating_count" (by decide), hg2 "hours_json" (by decide),
    hg2 "cleanliness_score" (by decide), hg2 "parking_score" (by decide),
    hg2 "restroom_access" (by decide),
    norm_0_5_four, norm_0_5_vnone, norm_noise_inverse_vnone, norm_seating_vnone,
    norm_hours_late_vnone, bool_norm_vnone]
  norm_num [Except.bind, pyOr]

theorem wf_combine_eval : combine
    [(Val.vnum 0.8, 0.22), (Val.vnum 0.5, 0.18), (Val.vnum 0.5, 0.15),
     (Val.vnum 0.4, 0.12), (Val.vnum 0.5, 0.10), (Val.vnum 0.4, 0.10),
     (Val.vnum 0.6, 0.08), (Val.vnum 0.5, 0.05)] = Except.ok (0.552, 1) := by
  norm_num [combine, presParts, totalW, List.filter, Val.isNone, sumMulAux,
    pyMulW, toPF, PF.add, PF.div, pfClamp, clamp, min_def, max_def]

theorem wf_core_eval : work_friendly_core 0.8 0.5 0.5 0.4 0.5 0.4 0.6 0.5 =
    Except.ok ⟨55.2, 1, "High", ["reliable Wi‑Fi"]⟩ := by
  unfold work_friendly_core
  rw [wf_combine_eval]
  norm_num [_conf, round1, roundHalfEven, Int.fract]

theorem wf_eval_c1 : work_friendly [("wifi_score", Val.vnum 4)] =
    Except.ok ⟨55.2, 1, "High", ["reliable Wi‑Fi"]⟩ := by
  unfold work_friendly
  rw [wf_norms_eval]
  simp only [Except.bind]
  exact wf_core_eval

-- C6 scenario record
theorem dietary_c6_norms : dietary_friendly_norms
    [("gf_food", Val.vbool false), ("df_milks", Val.vnum 0), ("nut_free", Val.vbool false)] =
    Except.ok (0, 0, 0, 0.6, 0.6) := by
  have hgf : rGet [("gf_food", Val.vbool false), ("df_milks", Val.vnum 0),
      ("nut_free", Val.vbool false)] "gf_food" = Val.vbool false := by
    simp [rGet, rGetD, rGetOpt]
  have hdf : rGet [("gf_food", Val.vbool false), ("df_milks", Val.vnum 0),
      ("nut_free", Val.vbool false)] "df_milks" = Val.vnum 0 := by
    simp [rGet, rGetD, rGetOpt]
  have hnut : rGet [("gf_food", Val.vbool false), ("df_milks", Val.vnum 0),
      ("nut_free", Val.vbool false)] "nut_free" = Val.vbool false := by
    simp [rGet, rGetD, rGetOpt]
  have hlabel : rGetD [("gf_food", Val.vbool false), ("df_milks", Val.vnum 0),
      ("nut_free", Val.vbool false)] "ingredient_transparency_score" (Val.vnum 3) =
      Val.vnum 3 := by
    simp [rGetD, rGetOpt]
  have hclean : rGet [("gf_food", Val.vbool false), ("df_milks", Val.vnum 0),
      ("nut_free", Val.vbool false)] "cleanliness_score" = Val.vnone := by
    simp [rGet, rGetD, rGetOpt]
  unfold dietary_friendly_norms
  rw [hgf, hdf, hnut, hlabel, hclean]
  norm_num [norm_df_milks, norm_0_5, bool_norm, _nz, pyFloat, pyTruthy, pyOr,
    Except.bind, clamp, min_def, max_def]

theorem dietary_c6_eval : dietary_friendly
    [("gf_food", Val.vbool false), ("df_milks", Val.vnum 0), ("nut_free", Val.vbool false)] =
    Except.ok ⟨12, 1, "High", []⟩ := by
  unfold dietary_friendly
  rw [dietary_c6_norms]
  simp only [Except.bind]
  exact dietary_friendly_core_nil

-- C5: a non-numeric string raises through float()
theorem norm_0_5_abc : norm_0_5 (Val.vstr "abc") = Except.error () := rfl

theorem wf_abc_err : work_friendly [("wifi_score", Val.vstr "abc")] = Except.error () := by
  unfold work_friendly work_friendly_norms
  have hg1 : rGet [("wifi_score", Val.vstr "abc")] "wifi_score" = Val.vstr "abc" := by
    simp [rGet, rGetD, rGetOpt]
  rw [hg1, norm_0_5_abc]
  simp [Except.bind]

theorem compute_abc_err : compute_all_vibes [("wifi_score", Val.vstr "abc")]
    Val.vnone Val.vnone = Except.error () := by
  unfold compute_all_vibes
  rw [proximityNorm_vnone]
  simp only [Except.bind]
  rw [wf_abc_err]

-- C4 counterexample: a day stored as [20.0, 6.0]
theorem hours_20_6_early : norm_hours_early
    (Val.vdict [("mon", Val.vlist [Val.vnum 20, Val.vnum 6])]) =
    Except.ok (some 0) := by
  norm_num [norm_hours_early, earlyFold, earlyStep, toPF, PF.le, PF.lt, PF.add, PF.sub,
    PF.div, pyMaxPF, pyMinPF, pfClamp, clamp, min_def, max_def, List.isEmpty]

theorem hours_20_6_late : norm_hours_late
    (Val.vdict [("mon", Val.vlist [Val.vnum 20, Val.vnum 6])]) =
    Except.ok (some 0) := by
  norm_num [norm_hours_late, lateFold, lateStep, toPF, PF.le, PF.lt, PF.add, PF.sub,
    PF.div, pyMaxPF, pyMinPF, pfClamp, clamp, min_def, max_def, List.isEmpty]

-- C7: NaN inputs to the scalar normalizers
theorem norm_0_5_vnan : norm_0_5 Val.vnan = Except.ok none := rfl
theorem bool_norm_vnan : bool_norm Val.vnan = none := rfl
theorem norm_seating_vnan : norm_seating Val.vnan = Except.ok none := rfl
theorem norm_price_index_vnan : norm_price_index Val.vnan = Except.ok none := rfl
theorem norm_df_milks_vnan : norm_df_milks Val.vnan = Except.ok none := rfl
theorem norm_noise_inverse_vnan : norm_noise_inverse Val.vnan = Except.ok none := rfl
theorem norm_mid_noise_bonus_vnan : norm_mid_noise_bonus Val.vnan = Except.ok none := rfl
theorem norm_hours_late_vnan : norm_hours_late Val.vnan = Except.ok none := rfl
theorem norm_hours_early_vnan : norm_hours_early Val.vnan = Except.ok none := rfl

-- C7 counterexample: a NaN endpoint inside the mapping yields 1.0
theorem hours_nan_late : norm_hours_late
    (Val.vdict [("mon", Val.vlist [Val.vnan, Val.vnum 5])]) =
    Except.ok (some 1) := by
  norm_num [norm_hours_late, lateFold, lateStep, toPF, PF.le, PF.lt, PF.add, PF.sub,
    PF.div, pyMaxPF, pyMinPF, pfClamp, List.isEmpty]

theorem hours_nan_early : norm_hours_early
    (Val.vdict [("mon", Val.vlist [Val.vnan, Val.vnum 5])]) =
    Except.ok (some 1) := by
  norm_num [norm_hours_early, earlyFold, earlyStep, toPF, PF.le, PF.lt, PF.add, PF.sub,
    PF.div, pyMaxPF, pyMinPF, pfClamp, List.isEmpty]

-- a tiny concrete combine for the C2 witness
theorem combine_half : combine [(Val.vnum 0.5, 1)] = Except.ok (0.5, 1) := by
  norm_num [combine, presParts, totalW, List.filter, Val.isNone, sumMulAux, pyMulW,
    toPF, PF.add, PF.div, pfClamp, clamp, min_def, max_def, List.isEmpty]

-- helper for the amended C1: a record carrying only a numeric wifi_score
theorem wf_norms_wifiq (q : ℚ) : work_friendly_norms [("wifi_score", Val.vnum q)] =
    Except.ok (pyOr (some (clamp (q / 5))) 0.6, 0.5, 0.5, 0.4, 0.5, 0.4, 0.6, 0.5) := by
  have hg1 : rGet [("wifi_score", Val.vnum q)] "wifi_score" = Val.vnum q := by
    simp [rGet, rGetD, rGetOpt]
  have hg2 : ∀ k, k ≠ "wifi_score" → rGet [("wifi_score", Val.vnum q)] k = Val.vnone := by
    intro k hk
    simp [rGet, rGetD, rGetOpt, Ne.symm hk]
  have hq : norm_0_5 (Val.vnum q) = Except.ok (some (clamp (q / 5))) := by
    simp [norm_0_5, _nz, pyFloat]
  unfold work_friendly_norms
  rw [hg1, hg2 "outlets_score" (by decide), hg2 "noise_score" (by decide),
    hg2 "seating_count" (by decide), hg2 "hours_json" (by decide),
    hg2 "cleanliness_score" (by decide), hg2 "parking_score" (by decide),
    hg2 "restroom_access" (by decide), hq, norm_0_5_vnone, norm_noise_inverse_vnone,
    norm_seating_vnone, norm_hours_late_vnone, bool_norm_vnone]
  simp [Except.bind, pyOr]

/-- Claim C1 (counterexample).  With only `wifi_score = 4` present, the
Work-Friendly scorer returns coverage 1.0 and confidence "High" (score
55.2, driver "reliable Wi‑Fi"), not the claimed coverage 0.22 and
confidence "Low": the fallback defaults are substituted before
`combine`, so every rubric pair counts as present. -/
theorem C1_counterexample :
    work_friendly [("wifi_score", Val.vnum 4)] =
      Except.ok ⟨55.2, 1, "High", ["reliable Wi‑Fi"]⟩ ∧
    (1 : ℚ) ≠ 0.22 ∧ "High" ≠ "Low" := by
  refine ⟨wf_eval_c1, by norm_num, by simp⟩

/-- Claim C1 (amended).  For every shop record whose only binding is a
numeric `wifi_score`, `work_friendly` substitutes its fallback defaults
for all other attributes before `combine`, so every pair is present:
the returned coverage is 1.0 and the confidence is "High". -/
theorem C1_amended_defaults (q : ℚ) :
    ∃ vr, work_friendly [("wifi_score", Val.vnum q)] = Except.ok vr ∧
      vr.coverage = 1 ∧ vr.confidence = "High" := by
  obtain ⟨vr, hvr⟩ := wf_core_ok (pyOr (some (clamp (q / 5))) 0.6) 0.5 0.5 0.4 0.5 0.4 0.6 0.5
  have hw : work_friendly [("wifi_score", Val.vnum q)] = Except.ok vr := by
    unfold work_friendly
    rw [wf_norms_wifiq q]
    simp only [Except.bind]
    exact hvr
  exact ⟨vr, hw, wf_core_inv _ _ _ _ _ _ _ _ vr hvr⟩

/-- Claim C2.  `combine` discards pairs with absent strength or
non-positive weight; on zero declared weight or no usable pairs it
returns `(0.0, 0.0)` — in particular on `[]` and on `[(v, 0)]` — and
otherwise returns the clamped weighted average over the present pairs
and the clamped coverage `presentWeight/totalWeight`, so every returned
blended strength and coverage lies in `[0, 1]`. -/
theorem C2_combine_spec :
    (combine [] = Except.ok (0, 0)) ∧
    (∀ v, combine [(v, 0)] = Except.ok (0, 0)) ∧
    (∀ parts, totalW parts ≤ 0 → combine parts = Except.ok (0, 0)) ∧
    (∀ parts, presParts parts = [] → combine parts = Except.ok (0, 0)) ∧
    (∀ parts s c, combine parts = Except.ok (s, c) →
      0 ≤ s ∧ s ≤ 1 ∧ 0 ≤ c ∧ c ≤ 1) ∧
    (∀ parts n, 0 < totalW parts → presParts parts ≠ [] →
      sumMulAux (PF.num 0) (presParts parts) = Except.ok n →
      combine parts = Except.ok
        (pfClamp (PF.div n (PF.num ((presParts parts).map Prod.snd).sum)),
         clamp (((presParts parts).map Prod.snd).sum / totalW parts))) := by
  refine ⟨?_, ?_, ?_, ?_, ?_, ?_⟩
  · norm_num [combine, presParts, totalW, List.filter, List.isEmpty]
  · intro v
    norm_num [combine, presParts, totalW, List.filter, List.isEmpty]
  · intro parts h
    simp only [combine]
    rw [if_pos (Or.inl h)]
  · intro parts h
    simp only [combine]
    rw [if_pos (Or.inr (by rw [h]; rfl))]
  · intro parts s c h
    by_cases hcond : totalW parts ≤ 0 ∨ (presParts parts).isEmpty = true
    · simp only [combine] at h
      rw [if_pos hcond] at h
      simp only [Except.ok.injEq, Prod.mk.injEq] at h
      obtain ⟨hs, hc⟩ := h
      subst hs
      subst hc
      norm_num
    · simp only [combine] at h
      rw [if_neg hcond] at h
      cases hsum : sumMulAux (PF.num 0) (presParts parts) with
      | error e => rw [hsum] at h; simp at h
      | ok n =>
        rw [hsum] at h
        simp only [Except.ok.injEq, Prod.mk.injEq] at h
        obtain ⟨hs, hc⟩ := h
        subst hs hc
        refine ⟨?_, ?_, le_max_left 0 _, max_le (by norm_num) (min_le_left _ _)⟩
        · cases PF.div n (PF.num ((presParts parts).map Prod.snd).sum) with
          | num q => exact le_max_left 0 _
          | nan => norm_num [pfClamp]
        · cases PF.div n (PF.num ((presParts parts).map Prod.snd).sum) with
          | num q => exact max_le (by norm_num) (min_le_left _ _)
          | nan => norm_num [pfClamp]
  · intro parts n hpos hne hsum
    simp only [combine]
    rw [if_neg, hsum]
    push_neg
    exact ⟨by linarith, by simpa [List.isEmpty_iff] using hne⟩

/-- Witness for C2 at a concrete part list: `combine [(0.5, 1)]`
returns `(0.5, 1)`, and both components lie in `[0, 1]`. -/
theorem C2_combine_spec_witness :
    0 ≤ (0.5 : ℚ) ∧ (0.5 : ℚ) ≤ 1 ∧ 0 ≤ (1 : ℚ) ∧ (1 : ℚ) ≤ 1 :=
  C2_combine_spec.2.2.2.2.1 [(Val.vnum 0.5, 1)] 0.5 1 combine_half

/-- Claim C3.  For every shop record and any optional proximity counts,
every VibeResult that `compute_all_vibes` returns has coverage at least
0.88 and confidence "High": the scorers substitute fallback defaults
before `combine`, and only the Date-Night walkables pair (weight 0.12)
and the Family-Friendly parks pair (weight 0.07) can remain absent, so
"Medium" and "Low" are unreachable from the public interface. -/
theorem C3_high_confidence (r : Record) (wc pc : Val)
    (m : List (String × VibeResult))
    (h : compute_all_vibes r wc pc = Except.ok m) :
    ∀ p ∈ m, 0.88 ≤ p.2.coverage ∧ p.2.confidence = "High" :=
  compute_all_vibes_inv r wc pc m h

/-- Witness for C3 on the empty record: the Work-Friendly result has
coverage 1 ≥ 0.88 and confidence "High". -/
theorem C3_high_confidence_witness :
    0.88 ≤ (VibeResult.mk 50.8 1 "High" []).coverage ∧
    (VibeResult.mk 50.8 1 "High" []).confidence = "High" :=
  C3_high_confidence [] Val.vnone Val.vnone _ compute_all_vibes_nil
    ("Work-Friendly", ⟨50.8, 1, "High", []⟩) (by simp)

/-- Claim C4 (counterexample).  A day stored as `[20.0, 6.0]`
(open 8pm, wrap to 6am) contributes NOTHING to the early and late
accumulators — the loop only credits early hours when `open < 7.5` and
late hours when `close > 19` — so both normalizers return 0.0, not the
claimed 6/10 and 4/10. -/
theorem C4_counterexample :
    norm_hours_early (Val.vdict [("mon", Val.vlist [Val.vnum 20, Val.vnum 6])]) =
      Except.ok (some 0) ∧
    norm_hours_late (Val.vdict [("mon", Val.vlist [Val.vnum 20, Val.vnum 6])]) =
      Except.ok (some 0) ∧
    (Except.ok (some (0 : ℚ)) : Except Unit (Option ℚ)) ≠ Except.ok (some 0.6) ∧
    (Except.ok (some (0 : ℚ)) : Except Unit (Option ℚ)) ≠ Except.ok (some 0.4) := by
  refine ⟨hours_20_6_early, hours_20_6_late, ?_, ?_⟩
  · simp only [ne_eq, Except.ok.injEq, Option.some.injEq]
    norm_num
  · simp only [ne_eq, Except.ok.injEq, Option.some.injEq]
    norm_num

/-- Claim C4 (amended).  For an hours mapping whose entries are all
well-formed and non-wrapping (`0 ≤ open < close ≤ 24`) with positive
total span `T`, `norm_hours_early` returns `clamp(E/T)` and
`norm_hours_late` returns `clamp(L/T)` where `E` and `L` are the true
per-day overlaps with the early/late windows; a non-dict value or an
empty mapping yields `None`.  (Wrapped days are NOT credited across
midnight, as the counterexample shows.) -/
theorem C4_amended_hours :
    (∀ entries, (∀ p ∈ entries, hoursWF p = true) →
      0 < (entries.map entrySpan).sum →
      norm_hours_early (Val.vdict entries) =
        Except.ok (some (clamp ((entries.map entryEarly).sum /
          (entries.map entrySpan).sum))) ∧
      norm_hours_late (Val.vdict entries) =
        Except.ok (some (clamp ((entries.map entryLate).sum /
          (entries.map entrySpan).sum)))) ∧
    (∀ v, v.isDict = false →
      norm_hours_early v = Except.ok none ∧ norm_hours_late v = Except.ok none) ∧
    (norm_hours_early (Val.vdict []) = Except.ok none ∧
     norm_hours_late (Val.vdict []) = Except.ok none) := by
  refine ⟨?_, ?_, rfl, rfl⟩
  · intro entries h hT
    exact ⟨norm_hours_early_wf entries h hT, norm_hours_late_wf entries h hT⟩
  · intro v hv
    cases v <;> simp_all [Val.isDict, norm_hours_early, norm_hours_late]

/-- Witness for C4 on `{"mon": [6.0, 22.0]}`: span 16, early overlap
1.5, late overlap 3, so the normalizers return 3/32 and 3/16. -/
theorem C4_amended_hours_witness :
    norm_hours_early (Val.vdict [("mon", Val.vlist [Val.vnum 6, Val.vnum 22])]) =
      Except.ok (some (3/32)) ∧
    norm_hours_late (Val.vdict [("mon", Val.vlist [Val.vnum 6, Val.vnum 22])]) =
      Except.ok (some (3/16)) := by
  obtain ⟨he, hl⟩ := C4_amended_hours.1 [("mon", Val.vlist [Val.vnum 6, Val.vnum 22])]
    (by
      intro p hp
      simp only [List.mem_cons, List.not_mem_nil, or_false] at hp
      subst hp
      simp [hoursWF]
      norm_num)
    (by norm_num [entrySpan])
  constructor
  · rw [he]
    norm_num [entryEarly, entrySpan, dayEarlyOverlap, clamp, min_def, max_def]
  · rw [hl]
    norm_num [entryLate, entrySpan, dayLateOverlap, clamp, min_def, max_def]

/-- Claim C5 (counterexample).  `compute_all_vibes` is NOT
exception-free for every input shape: a non-numeric string in
`wifi_score` raises a `ValueError` inside Python `float()` (modelled as
`Except.error`). -/
theorem C5_counterexample :
    compute_all_vibes [("wifi_score", Val.vstr "abc")] Val.vnone Val.vnone =
      Except.error () :=
  compute_abc_err

/-- Claim C5 (amended).  For every attribute mapping conforming to the
data model — each value an optional scalar (number, NaN, bool, None),
with `hours_json` additionally allowed to be a dict whose 2-element-list
entries have scalar endpoints — and safe scalar proximity counts,
`compute_all_vibes` returns a result without raising. -/
theorem C5_amended_safety (r : Record) (wc pc : Val)
    (hr : recordSafe r = true) (hwc : scalarSafe wc = true)
    (hpc : scalarSafe pc = true) :
    ∃ m, compute_all_vibes r wc pc = Except.ok m :=
  compute_all_vibes_safe r wc pc hr hwc hpc

/-- Witness for C5 on a one-field numeric record. -/
theorem C5_amended_safety_witness :
    ∃ m, compute_all_vibes [("wifi_score", Val.vnum 4)] Val.vnone Val.vnone =
      Except.ok m :=
  C5_amended_safety [("wifi_score", Val.vnum 4)] Val.vnone Val.vnone
    (by decide) (by decide) (by decide)

/-- Claim C6 (counterexample).  With `gf_food=false, df_milks=0,
nut_free=false` the Dietary-Friendly score is 12.0, not 0: the
transparency lookup defaults to 3.0 (strength 0.6, weight 0.10) and
cleanliness defaults to 0.6 (weight 0.10). -/
theorem C6_counterexample :
    dietary_friendly [("gf_food", Val.vbool false), ("df_milks", Val.vnum 0),
      ("nut_free", Val.vbool false)] = Except.ok ⟨12, 1, "High", []⟩ ∧
    (12 : ℚ) ≠ 0 :=
  ⟨dietary_c6_eval, by norm_num⟩

/-- Claim C6 (amended).  For that record the score is exactly 12.0 with
full coverage: the gf/df/nut strengths are 0, but the defaulted
transparency and cleanliness contribute 0.12 of blended strength and
the coverage correction is 1.0. -/
theorem C6_amended_score :
    ∃ vr, dietary_friendly [("gf_food", Val.vbool false), ("df_milks", Val.vnum 0),
      ("nut_free", Val.vbool false)] = Except.ok vr ∧
      vr.score = 12 ∧ vr.coverage = 1 :=
  ⟨⟨12, 1, "High", []⟩, dietary_c6_eval, rfl, rfl⟩

/-- Claim C7 (counterexample).  A NaN open endpoint inside the hours
mapping does not behave like an absent value: the day's span becomes
NaN, the guard `t <= 0` is false on NaN, and `clamp(l/t)` evaluates to
1.0, so the normalizer returns `some 1.0` where an absent input yields
`None`. -/
theorem C7_counterexample :
    norm_hours_late (Val.vdict [("mon", Val.vlist [Val.vnan, Val.vnum 5])]) =
      Except.ok (some 1) ∧
    norm_hours_late Val.vnan = Except.ok none ∧
    (Except.ok (some (1 : ℚ)) : Except Unit (Option ℚ)) ≠ Except.ok none := by
  refine ⟨hours_nan_late, rfl, by simp⟩

/-- Claim C7 (amended).  Every scalar normalizer maps NaN to `None`,
and the hours normalizers map a NaN (non-dict) input to `None`; but a
NaN open/close endpoint inside the mapping is NOT treated as absent:
both hours normalizers then return 1.0. -/
theorem C7_amended_nan :
    norm_0_5 Val.vnan = Except.ok none ∧
    bool_norm Val.vnan = none ∧
    norm_seating Val.vnan = Except.ok none ∧
    norm_price_index Val.vnan = Except.ok none ∧
    norm_df_milks Val.vnan = Except.ok none ∧
    norm_noise_inverse Val.vnan = Except.ok none ∧
    norm_mid_noise_bonus Val.vnan = Except.ok none ∧
    norm_hours_early Val.vnan = Except.ok none ∧
    norm_hours_late Val.vnan = Except.ok none ∧
    norm_hours_early (Val.vdict [("mon", Val.vlist [Val.vnan, Val.vnum 5])]) =
      Except.ok (some 1) ∧
    norm_hours_late (Val.vdict [("mon", Val.vlist [Val.vnan, Val.vnum 5])]) =
      Except.ok (some 1) :=
  ⟨rfl, rfl, rfl, rfl, rfl, rfl, rfl, rfl, rfl, hours_nan_early, hours_nan_late⟩

/-- Claim C8.  For two shop records agreeing everywhere except
`wifi_score`, and identical proximity counts, the Aesthetic,
Grab-and-Go, Date-Night, Dietary-Friendly and Family-Friendly scorers
return identical results, and the `compute_all_vibes` mappings agree
once the Work-Friendly and Study-Spot entries are removed. -/
theorem C8_wifi_isolation (r1 r2 : Record)
    (hag : ∀ k, k ≠ "wifi_score" → rGetOpt r1 k = rGetOpt r2 k) :
    aesthetic r1 = aesthetic r2 ∧
    grab_and_go r1 = grab_and_go r2 ∧
    (∀ w, date_night r1 w = date_night r2 w) ∧
    dietary_friendly r1 = dietary_friendly r2 ∧
    (∀ p, family_friendly r1 p = family_friendly r2 p) ∧
    (∀ wc pc m1 m2, compute_all_vibes r1 wc pc = Except.ok m1 →
      compute_all_vibes r2 wc pc = Except.ok m2 →
      m1.filter (fun p => decide (p.1 ≠ "Work-Friendly") &&
        decide (p.1 ≠ "Study-Spot")) =
      m2.filter (fun p => decide (p.1 ≠ "Work-Friendly") &&
        decide (p.1 ≠ "Study-Spot"))) := by
  have hae := aesthetic_congr r1 r2 hag
  have hgg := grab_and_go_congr r1 r2 hag
  have hdn := fun w => date_night_congr r1 r2 w hag
  have hdf := dietary_friendly_congr r1 r2 hag
  have hff := fun p => family_friendly_congr r1 r2 p hag
  refine ⟨hae, hgg, hdn, hdf, hff, ?_⟩
  intro wc pc m1 m2 h1 h2
  obtain ⟨w1, pk1, a1, b1, c1, d1, e1, f1, g1, hw1, hpk1, ha1, hb1, hc1, hd1, he1, hf1, hg1, hm1⟩ :=
    compute_all_vibes_ok_shape r1 wc pc m1 h1
  obtain ⟨w2, pk2, a2, b2, c2, d2, e2, f2, g2, hw2, hpk2, ha2, hb2, hc2, hd2, he2, hf2, hg2, hm2⟩ :=
    compute_all_vibes_ok_shape r2 wc pc m2 h2
  have hweq : w1 = w2 := by simpa using hw1.symm.trans hw2
  have hpkeq : pk1 = pk2 := by simpa using hpk1.symm.trans hpk2
  subst hweq hpkeq
  have hbeq : b1 = b2 := Except.ok.inj (hb1.symm.trans (hae.symm ▸ hb2))
  have hceq : c1 = c2 := Except.ok.inj (hc1.symm.trans (hgg.symm ▸ hc2))
  have hdeq : d1 = d2 := Except.ok.inj (hd1.symm.trans ((hdn w1).symm ▸ hd2))
  have heeq : e1 = e2 := Except.ok.inj (he1.symm.trans (hdf.symm ▸ he2))
  have hgeq : g1 = g2 := Except.ok.inj (hg1.symm.trans ((hff pk1).symm ▸ hg2))
  subst hbeq hceq hdeq heeq hgeq
  rw [hm1, hm2]
  simp [List.filter]

/-- Witness for C8: two concrete records differing only in wifi_score
produce the same Aesthetic result. -/
theorem C8_wifi_isolation_witness :
    aesthetic [("wifi_score", Val.vnum 5)] = aesthetic [] :=
  (C8_wifi_isolation [("wifi_score", Val.vnum 5)] []
    (by
      intro k hk
      simp [rGetOpt, Ne.symm hk])).1

/-- Claim C9.  A raw value normalizing to strength 0.0 is
indistinguishable from an absent attribute in the `or`-fallback
scorers: `work_friendly` returns the same result whether
`restroom_access` is `False` or absent (both fall to the 0.5 default),
and whether `wifi_score` is 0 or absent (both fall to the 0.6
default). -/
theorem C9_falsy_indistinguishable :
    (∀ r1 r2 : Record, rGet r1 "restroom_access" = Val.vbool false →
      rGet r2 "restroom_access" = Val.vnone →
      (∀ k, k ≠ "restroom_access" → rGetOpt r1 k = rGetOpt r2 k) →
      work_friendly r1 = work_friendly r2) ∧
    (∀ r1 r2 : Record, rGet r1 "wifi_score" = Val.vnum 0 →
      rGet r2 "wifi_score" = Val.vnone →
      (∀ k, k ≠ "wifi_score" → rGetOpt r1 k = rGetOpt r2 k) →
      work_friendly r1 = work_friendly r2) := by
  constructor
  · intro r1 r2 h1 h2 hag
    unfold work_friendly work_friendly_norms
    rw [h1, h2]
    unfold rGet rGetD
    rw [hag "wifi_score" (by decide), hag "outlets_score" (by decide),
      hag "noise_score" (by decide), hag "seating_count" (by decide),
      hag "hours_json" (by decide), hag "cleanliness_score" (by decide),
      hag "parking_score" (by decide)]
    norm_num [bool_norm, _nz, pyTruthy, pyOr]
  · intro r1 r2 h1 h2 hag
    unfold work_friendly work_friendly_norms
    rw [h1, h2]
    unfold rGet rGetD
    rw [hag "outlets_score" (by decide), hag "noise_score" (by decide),
      hag "seating_count" (by decide), hag "hours_json" (by decide),
      hag "cleanliness_score" (by decide), hag "parking_score" (by decide),
      hag "restroom_access" (by decide)]
    norm_num [norm_0_5, _nz, pyFloat, pyOr, Except.bind, clamp, min_def, max_def]

/-- Witness for C9: `restroom_access = False` versus absent on concrete
records. -/
theorem C9_falsy_indistinguishable_witness :
    work_friendly [("restroom_access", Val.vbool false)] = work_friendly [] :=
  C9_falsy_indistinguishable.1 [("restroom_access", Val.vbool false)] []
    (by simp [rGet, rGetD, rGetOpt]) (by simp [rGet, rGetD, rGetOpt])
    (by
      intro k hk
      simp [rGetOpt, Ne.symm hk])

/-- Claim C10.  On a non-empty results mapping `narrative_one_liner`
returns a string, built for the highest-scoring vibe with the
first-listed one winning ties (Python's stable `sorted` with
`reverse=True`); on an empty mapping, `best_vibes` is empty and the
`[0]` subscript raises `IndexError` (modelled as an exception). -/
theorem C10_narrative (shop : String) (results : List (String × VibeResult))
    (wt : Option ℚ) (poi : Option (List String)) (late : Option String) :
    (results ≠ [] →
      ∃ x l1 l2, best_vibes results 1 = [x] ∧ results = l1 ++ x :: l2 ∧
        (∀ p ∈ l1, p.2.score < x.2.score) ∧
        (∀ p ∈ results, p.2.score ≤ x.2.score) ∧
        (narrative_one_liner shop results wt poi late).isOk = true) ∧
    narrative_one_liner shop [] wt poi late = Except.error () := by
  constructor
  · intro hne
    obtain ⟨x, rest, l1, l2, hsort, hdec, hpre, hmax⟩ := sortDesc_first_max results hne
    have hbest : best_vibes results 1 = [x] := by
      unfold best_vibes
      rw [hsort]
      rfl
    refine ⟨x, l1, l2, hbest, hdec, hpre, hmax, ?_⟩
    unfold narrative_one_liner
    rw [hbest]
    rfl
  · rfl

/-- Witness for C10 on a concrete two-element tied mapping. -/
theorem C10_narrative_witness :
    (narrative_one_liner "Shop" [("A", ⟨50, 1, "High", []⟩), ("B", ⟨50, 1, "High", []⟩)]
      none none none).isOk = true := by
  obtain ⟨x, l1, l2, hb, hd, hp, hm, hok⟩ :=
    (C10_narrative "Shop" [("A", ⟨50, 1, "High", []⟩), ("B", ⟨50, 1, "High", []⟩)]
      none none none).1 (by simp)
  exact hok
